import Mathlib

/-
  Verification development for the R2D reconciliation engine (r2d_recon.py).

  Embedding conventions:
  - Dollar amounts are integer cents (the code rounds every amount to 2
    decimals via r2, so cents are exact); AMOUNT_TOL = 0.02 dollars = 2 cents.
  - Dates are (year, month, day) triples compared through a day-number
    function; pandas Timestamp arithmetic on whole days is day-number
    arithmetic.  NaT is modelled as Option.none.
  - DataFrames are lists of row structures; a DataFrame with its pandas
    integer index is a list of (index, row) pairs; filtering keeps labels,
    exactly as pandas .loc filtering does.
  - Python sets used only for membership tests are modelled as lists with
    membership; python list.sort (stable) is modelled by a stable insertion
    sort; pandas sort_values uses an unstable quicksort, so tie order there
    is implementation defined - the stable sort below agrees with it on all
    tie-free inputs, and no theorem in this file depends on tie order.
  - pandas groupby iterates groups in sorted key order; groups are modelled
    in first-occurrence key order, which affects only the order of emitted
    group rows, never their contents; no theorem depends on that order.
  - Fields named with an Idx suffix on result records are ghost fields:
    the Python dicts identify the bank row by date and amount only, but the
    integer index is known at construction time (it is what the code inserts
    into the consumption sets), and the claims are stated about it.
  - Code that can raise is modelled in Except Unit.
-/

namespace R2D

/-- Dollar amounts in integer cents. -/
abbrev Money := Int

/-- AMOUNT_TOL = 0.02 dollars, i.e. 2 cents. -/
def AMOUNT_TOL : Money := 2

/-- DATE_WINDOW_DAYS = 10. -/
def DATE_WINDOW_DAYS : Int := 10

/-- DATE_WINDOW_DAYS_WIDE = 30. -/
def DATE_WINDOW_DAYS_WIDE : Int := 30

/-- OVERPAY_BACKFILL_WINDOW = 7. -/
def OVERPAY_BACKFILL_WINDOW : Int := 7

/-- NOTE_WINDOW_DAYS = 7. -/
def NOTE_WINDOW_DAYS : Int := 7

/-- NOTE_WINDOW_DAYS_EXTENDED = 3. -/
def NOTE_WINDOW_DAYS_EXTENDED : Int := 3

/-- MAX_CONFIDENCE = 0.99, in hundredths. -/
def MAX_CONFIDENCE : Nat := 99

/-- Calendar date, as pandas Timestamp at day granularity. -/
structure Ymd where
  y : Int
  m : Nat
  d : Nat
deriving DecidableEq, Repr, Inhabited

def isLeap (y : Int) : Bool :=
  (y % 4 == 0 && y % 100 != 0) || (y % 400 == 0)

def daysInMonth (y : Int) (m : Nat) : Nat :=
  if m == 2 then (if isLeap y then 29 else 28)
  else if m == 4 || m == 6 || m == 9 || m == 11 then 30
  else 31

/-- Validity check performed by the pandas Timestamp constructor:
pd.Timestamp(year=y, month=m, day=d) raises ValueError unless
1 <= m <= 12 and 1 <= d <= days in that month. -/
def validYmd (y : Int) (m d : Nat) : Bool :=
  1 ≤ m && m ≤ 12 && 1 ≤ d && d ≤ daysInMonth y m

/-- Days before the first of month m in a non-leap year. -/
def cumDays (m : Nat) : Nat :=
  match m with
  | 1 => 0 | 2 => 31 | 3 => 59 | 4 => 90 | 5 => 120 | 6 => 151
  | 7 => 181 | 8 => 212 | 9 => 243 | 10 => 273 | 11 => 304 | _ => 334

/-- Day number of a date (proleptic Gregorian); subtraction of two day
numbers is the pandas Timedelta day count. -/
def Ymd.toDay (t : Ymd) : Int :=
  365 * (t.y - 1) + Int.fdiv (t.y - 1) 4 - Int.fdiv (t.y - 1) 100
    + Int.fdiv (t.y - 1) 400
    + (cumDays t.m : Int)
    + (if t.m > 2 && isLeap t.y then 1 else 0)
    + (t.d : Int)

/-- posting_date >= center - days and posting_date <= center + days; a
missing (NaT) date compares False, exactly as in pandas. -/
def inWin (p : Option Ymd) (center : Ymd) (days : Int) : Bool :=
  match p with
  | some t => center.toDay - days ≤ t.toDay && t.toDay ≤ center.toDay + days
  | none => false

/-- abs value of an Int, as an Int. -/
def intAbs (x : Int) : Int := (x.natAbs : Int)

/-- abs(x - y) <= AMOUNT_TOL, the tolerance comparison used everywhere. -/
def amountClose (x y : Money) : Bool := intAbs (x - y) ≤ AMOUNT_TOL

-- ------------------------- string utilities -------------------------

/-- Python str.strip() whitespace test (ASCII subset, which is what the
input data contains). -/
def isWs (c : Char) : Bool := c.isWhitespace

def dropWhileL (p : Char → Bool) : List Char → List Char
  | [] => []
  | c :: cs => if p c then dropWhileL p cs else c :: cs

/-- Python str.strip(): drop leading and trailing whitespace. -/
def trimList (l : List Char) : List Char :=
  ((dropWhileL isWs ((dropWhileL isWs l).reverse)).reverse)

/-- Python str.strip() on a String. -/
def pytrim (s : String) : String := String.mk (trimList s.data)

/-- Lower-cased character list of a string (re.I matching and
str.contains(case=False) are modelled by matching lower-cased text against
lower-cased literals). -/
def lcs (s : String) : List Char := s.data.map Char.toLower

/-- Upper-cased character list. -/
def ucs (s : String) : List Char := s.data.map Char.toUpper

/-- needle occurs as a contiguous sublist of hay. -/
def subList (nd : List Char) : List Char → Bool
  | [] => nd.isEmpty
  | c :: rest => nd.isPrefixOf (c :: rest) || subList nd rest

/-- Case-insensitive substring test: str.contains(lit, case=False) /
an re.I regex alternative consisting of a literal. -/
def containsCI (s lit : String) : Bool := subList (lcs lit) (lcs s)

/-- Any of the literals occurs (case-insensitively): a regex alternation of
plain literals under re.I. -/
def containsAnyCI (s : String) (lits : List String) : Bool :=
  lits.any (fun l => containsCI s l)

/-- Split on runs of whitespace, dropping empty pieces: Python str.split(). -/
def splitWsGo (cur : List Char) (acc : List (List Char)) : List Char → List (List Char)
  | [] => if cur.isEmpty then acc.reverse else (cur.reverse :: acc).reverse
  | c :: cs =>
    if isWs c then
      if cur.isEmpty then splitWsGo [] acc cs else splitWsGo [] (cur.reverse :: acc) cs
    else splitWsGo (c :: cur) acc cs

def splitWs (s : String) : List String :=
  (splitWsGo [] [] s.data).map String.mk

-- ------------------------- pattern machinery -------------------------

/-
  The regexes of r2d_recon.py are embedded as backtracking pattern
  functions: a Pat maps an input suffix to the list of possible remainders
  after a match at the head of the input, in regex preference order
  (alternation order, greedy or lazy repetition order).  This reproduces
  re-module semantics for the patterns used by the code.
-/

def Pat := List Char → List (List Char)

def pLit (wrd : String) : Pat := fun cs =>
  if wrd.data.isPrefixOf cs then [cs.drop wrd.data.length] else []

def pEps : Pat := fun cs => [cs]

def pSeq (p q : Pat) : Pat := fun cs => (p cs).flatMap q

def pAlt (p q : Pat) : Pat := fun cs => p cs ++ q cs

def pAlts (ps : List Pat) : Pat := fun cs => ps.flatMap (fun p => p cs)

def pCat (ps : List Pat) : Pat := fun cs =>
  ps.foldl (fun acc p => acc.flatMap p) [cs]

/-- Greedy option (X?): prefer consuming. -/
def pOptG (p : Pat) : Pat := fun cs => p cs ++ [cs]

/-- Greedy star over a character class: longest first. -/
def pStarG (f : Char → Bool) : Pat := fun cs =>
  let run := (cs.takeWhile f).length
  (List.range (run + 1)).map (fun i => cs.drop (run - i))

/-- Greedy plus over a character class. -/
def pPlusG (f : Char → Bool) : Pat := fun cs =>
  match cs with
  | [] => []
  | c :: rest => if f c then pStarG f rest else []

/-- Lazy star over a character class: shortest first. -/
def pStarL (f : Char → Bool) : Pat := fun cs =>
  let run := (cs.takeWhile f).length
  (List.range (run + 1)).map (fun i => cs.drop i)

/-- Whitespace star and plus. -/
def pWs0 : Pat := pStarG isWs
def pWs1 : Pat := pPlusG isWs

/-- Optional literal dot. -/
def pDotOpt : Pat := pOptG (pLit ("."))

/-- Any character except a newline, the dot of the re module. -/
def anyNoNl (c : Char) : Bool := c != '\n'

/-- Does p match somewhere in the input (re.search)? -/
def reSearch (p : Pat) : List Char → Bool
  | [] => !(p []).isEmpty
  | cs@(_ :: rest) => !(p cs).isEmpty || reSearch p rest

def firstSome {β γ : Type} : List β → (β → Option γ) → Option γ
  | [], _ => none
  | b :: bs, f => match f b with
    | some g => some g
    | none => firstSome bs f

-- ------------------------- dollar amounts -------------------------

def digitVal (c : Char) : Nat := c.toNat - 48

def digitsToNat (ds : List Char) : Nat :=
  ds.foldl (fun a c => 10 * a + digitVal c) 0

/-- Match the amount regex piece ([0-9][0-9,]*\.[0-9]{2}) at the head of
the input (greedy run with backtracking, comma thousands separators
stripped, exactly two decimals).  Returns (cents, rest). -/
def matchAmount2 : List Char → Option (Nat × List Char)
  | [] => none
  | c :: rest =>
    if c.isDigit then
      let run := rest.takeWhile (fun ch => ch.isDigit || ch == ',')
      firstSome (List.range (run.length + 1)) (fun i =>
        let keep := run.length - i
        match rest.drop keep with
        | '.' :: d1 :: d2 :: r2 =>
          if d1.isDigit && d2.isDigit then
            let intPart := digitsToNat ((c :: run.take keep).filter (fun ch => ch.isDigit))
            some (intPart * 100 + digitVal d1 * 10 + digitVal d2, r2)
          else none
        | _ => none)
    else none

/-- Match the looser amount piece ([0-9][0-9,]*\.?[0-9]{0,2}) of
OVERPAID_REGEX at the head of the input (all pieces greedy), returning
cents. -/
def matchAmountLoose : List Char → Option (Nat × List Char)
  | [] => none
  | c :: rest =>
    if c.isDigit then
      let run := rest.takeWhile (fun ch => ch.isDigit || ch == ',')
      let intPart := digitsToNat ((c :: run).filter (fun ch => ch.isDigit))
      let rest1 := rest.drop run.length
      match rest1 with
      | '.' :: r1 =>
        match r1 with
        | d1 :: d2 :: r2 =>
          if d1.isDigit && d2.isDigit then
            some (intPart * 100 + digitVal d1 * 10 + digitVal d2, r2)
          else if d1.isDigit then
            some (intPart * 100 + digitVal d1 * 10, d2 :: r2)
          else some (intPart * 100, d1 :: d2 :: r2)
        | [d1] =>
          if d1.isDigit then some (intPart * 100 + digitVal d1 * 10, [])
          else some (intPart * 100, [d1])
        | [] => some (intPart * 100, [])
      | _ => some (intPart * 100, rest1)
    else none

/-- Lazily scan forward (the .*? gap, which cannot cross a newline) for a
dollar sign immediately followed by a two-decimal amount: the tail
\$([0-9][0-9,]*\.[0-9]{2}) shared by several regexes.  Returns (cents,
rest after the amount). -/
def lazyDollar2 : Nat → List Char → Option (Nat × List Char)
  | 0, _ => none
  | _ + 1, [] => none
  | fuel + 1, c :: rest =>
    if c == '$' then
      match matchAmount2 rest with
      | some (amt, r) => some (amt, r)
      | none => lazyDollar2 fuel rest
    else if c == '\n' then none
    else lazyDollar2 fuel rest

/-- Leftmost-preference full match for a regex of the shape
PREFIX.*?\$AMOUNT anchored at the head of the input: try the prefix
remainders in preference order, then the nearest following dollar amount.
Returns (cents, number of characters of the whole match). -/
def stepPrefixDollar (p : Pat) (cs : List Char) : Option (Nat × Nat) :=
  firstSome (p cs) (fun rem =>
    match lazyDollar2 (rem.length + 1) rem with
    | some (amt, r) => some (amt, cs.length - r.length)
    | none => none)

/-- re.finditer driver: walk the text; at each position run the step; on a
match emit its value and continue after the match (non-overlapping), else
advance one character. -/
def reIter {α : Type} (step : List Char → Option (α × Nat)) : Nat → List Char → List α
  | 0, _ => []
  | _ + 1, [] => []
  | fuel + 1, cs@(_ :: rest) =>
    match step cs with
    | some (a, n) => a :: reIter step fuel (cs.drop (max n 1))
    | none => reIter step fuel rest

/-- Position-tracking finditer used for DOLLAR_REGEX, emitting
(start, cents, end) for each match. -/
def reIterPos (step : List Char → Option (Nat × Nat)) :
    Nat → Nat → List Char → List (Nat × Nat × Nat)
  | 0, _, _ => []
  | _ + 1, _, [] => []
  | fuel + 1, pos, cs@(_ :: rest) =>
    match step cs with
    | some (amt, n) =>
      (pos, amt, pos + n) :: reIterPos step fuel (pos + max n 1) (cs.drop (max n 1))
    | none => reIterPos step fuel (pos + 1) rest

-- ------------------------- the regexes of r2d_recon.py -------------------------

/-- TRANSFER_HINTS: (?:dwolla|transfer|ach|orig co name|orig id|trn), re.I. -/
def TRANSFER_HINTS_LITS : List String :=
  [("dwolla"), ("transfer"), ("ach"), ("orig co name"), ("orig id"), ("trn")]

/-- OVERPAY_DEBIT_HINTS: (?:2670|transfer), re.I. -/
def OVERPAY_DEBIT_HINTS_LITS : List String := [("2670"), ("transfer")]

/-- The prefix of OVERPAID_REGEX:
(?:overpaid\s*(?:by)?|overpayment\s*(?:of)?)\s*\$?\s*  (re.I). -/
def overpaidPrefixPat : Pat :=
  pCat
    [ pAlt (pCat [pLit ("overpaid"), pWs0, pOptG (pLit ("by"))])
           (pCat [pLit ("overpayment"), pWs0, pOptG (pLit ("of"))])
    , pWs0, pOptG (pLit ("$")), pWs0 ]

/-- Full OVERPAID_REGEX match at the head of the input. -/
def overpaidStep (cs : List Char) : Option (Nat × Nat) :=
  firstSome (overpaidPrefixPat cs) (fun rem =>
    match matchAmountLoose rem with
    | some (amt, r) => some (amt, cs.length - r.length)
    | none => none)

/-- parse_overpaid_amount: first OVERPAID_REGEX match of the notes, in
cents (None when the notes are empty after stripping or match nothing). -/
def parse_overpaid_amount (notes : String) : Option Money :=
  if (pytrim notes) == ("") then none
  else
    match reIter overpaidStep (notes.data.length + 1) (lcs notes) with
    | [] => none
    | amt :: _ => some (amt : Int)

/-- PAREN_SUFFIX: \s*\([^)]*\)\s*$ — does the given suffix match it to the
end? -/
def parenSuffixToEnd (cs : List Char) : Bool :=
  ((pCat
    [ pWs0, pLit ("("), pStarG (fun c => c != ')'), pLit (")"), pWs0 ]) cs).contains []

/-- PAREN_SUFFIX.sub("", s): remove the leftmost trailing parenthetical. -/
def stripParenSuffix (s : String) : String :=
  let cs := s.data
  match (List.range (cs.length + 1)).find? (fun i => parenSuffixToEnd (cs.drop i)) with
  | some i => String.mk (cs.take i)
  | none => s

/-- The base-claimant suffix of validate_ach_id_conflicts:
\s*\(?(AFR\d*|Buyout.*|BuyoutCA)\)?$ (case sensitive) matched to the end. -/
def achSuffixToEnd (cs : List Char) : Bool :=
  ((pCat
    [ pWs0
    , pOptG (pLit ("("))
    , pAlts
        [ pCat [pLit ("AFR"), pStarG Char.isDigit]
        , pCat [pLit ("Buyout"), pStarG anyNoNl]
        , pLit ("BuyoutCA") ]
    , pOptG (pLit (")")) ]) cs).contains []

/-- re.sub of the AFR/Buyout suffix followed by .strip(): the base claimant
name used for conflict detection. -/
def baseClaimantName (s : String) : String :=
  let cs := s.data
  match (List.range (cs.length + 1)).find? (fun i => achSuffixToEnd (cs.drop i)) with
  | some i => pytrim (String.mk (cs.take i))
  | none => pytrim s

/-- DATE_IN_NOTES: \b(\d{1,2})/(\d{1,2})\b findall, with word boundaries;
returns (month, day) pairs. -/
def isWordChar (c : Char) : Bool := c.isAlphanum || c == '_'

/-- The day group of DATE_IN_NOTES: greedy two digits then one, with the
trailing word boundary.  mo is the already parsed month, used the number of
characters consumed so far; returns ((month, day), total consumed). -/
def dateDayPart (mo : Nat) (used : Nat) : List Char → Option ((Nat × Nat) × Nat)
  | [] => none
  | [d1] => if d1.isDigit then some ((mo, digitVal d1), used + 1) else none
  | d1 :: d2 :: r =>
    if d1.isDigit then
      if d2.isDigit then
        if isWordChar (r.headD ' ') then none
        else some ((mo, digitVal d1 * 10 + digitVal d2), used + 2)
      else if isWordChar d2 then none
      else some ((mo, digitVal d1), used + 1)
    else none

/-- Try the date token at the head given whether the previous character was
a word character (the leading boundary); greedy 2-then-1 digit month group
followed by the slash.  Returns ((month, day), consumed). -/
def dateTokenStep (prevWord : Bool) (cs : List Char) : Option ((Nat × Nat) × Nat) :=
  if prevWord then none
  else
    match cs with
    | a :: b :: '/' :: rest =>
      if a.isDigit && b.isDigit then
        dateDayPart (digitVal a * 10 + digitVal b) 3 rest
      else none
    | a :: '/' :: rest =>
      if a.isDigit then dateDayPart (digitVal a) 2 rest else none
    | _ => none

/-- The findall loop for DATE_IN_NOTES, tracking the word/non-word status
of the previous character for the leading boundary. -/
def findDatesGo : Nat → Bool → List Char → List (Nat × Nat)
  | 0, _, _ => []
  | _ + 1, _, [] => []
  | fuel + 1, prevWord, cs@(c :: rest) =>
    match dateTokenStep prevWord cs with
    | some (md, n) => md :: findDatesGo fuel true (cs.drop (max n 1))
    | none => findDatesGo fuel (isWordChar c) rest

def findDates (cs : List Char) : List (Nat × Nat) :=
  findDatesGo (cs.length + 1) false cs

-- ------------------------- note-event regexes -------------------------

/-- The has_rem_received check of extract_note_events:
re.search of rem\.?\s*repayment\s+received|remaining\s+repayment\s+received
|received\s+rem\.?\s*repayment, re.I. -/
def remReceivedPat : Pat :=
  pAlts
    [ pCat [pLit ("rem"), pDotOpt, pWs0, pLit ("repayment"), pWs1, pLit ("received")]
    , pCat [pLit ("remaining"), pWs1, pLit ("repayment"), pWs1, pLit ("received")]
    , pCat [pLit ("received"), pWs1, pLit ("rem"), pDotOpt, pWs0, pLit ("repayment")] ]

/-- The alternation prefix of REQUESTED_REMAINING_REGEX:
(req\.?\s*rem\.?|requested\s+rem\.?|req\.?\s*remaining|requested\s+remaining
|requesting\s+remaining|requesting\s+rem|underpayment\s+of), re.I. -/
def reqRemPrefixPat : Pat :=
  pAlts
    [ pCat [pLit ("req"), pDotOpt, pWs0, pLit ("rem"), pDotOpt]
    , pCat [pLit ("requested"), pWs1, pLit ("rem"), pDotOpt]
    , pCat [pLit ("req"), pDotOpt, pWs0, pLit ("remaining")]
    , pCat [pLit ("requested"), pWs1, pLit ("remaining")]
    , pCat [pLit ("requesting"), pWs1, pLit ("remaining")]
    , pCat [pLit ("requesting"), pWs1, pLit ("rem")]
    , pCat [pLit ("underpayment"), pWs1, pLit ("of")] ]

/-- The alternation prefix of RECEIVED_CHECK_REGEX:
(received.*?check|rec\.?\s*rem|received\s+rem|received\s+remaining
|remaining\s+repayment|repayment\s+received|underpaid\s+by|received\s+for),
re.I. -/
def recvCheckPrefixPat : Pat :=
  pAlts
    [ pCat [pLit ("received"), pStarL anyNoNl, pLit ("check")]
    , pCat [pLit ("rec"), pDotOpt, pWs0, pLit ("rem")]
    , pCat [pLit ("received"), pWs1, pLit ("rem")]
    , pCat [pLit ("received"), pWs1, pLit ("remaining")]
    , pCat [pLit ("remaining"), pWs1, pLit ("repayment")]
    , pCat [pLit ("repayment"), pWs1, pLit ("received")]
    , pCat [pLit ("underpaid"), pWs1, pLit ("by")]
    , pCat [pLit ("received"), pWs1, pLit ("for")] ]

/-- CREDIT_KEYWORDS:
(received|deposit|check|credited|incoming|rec\.?\s*rem|received\s+rem
|received\s+remaining|rcvd|remaining\s+repayment|repayment\s+received
|remaining\s*bal|rem\.?\s*bal|underpaid\s+by), re.I. -/
def creditKeywordsPat : Pat :=
  pAlts
    [ pLit ("received"), pLit ("deposit"), pLit ("check"), pLit ("credited")
    , pLit ("incoming")
    , pCat [pLit ("rec"), pDotOpt, pWs0, pLit ("rem")]
    , pCat [pLit ("received"), pWs1, pLit ("rem")]
    , pCat [pLit ("received"), pWs1, pLit ("remaining")]
    , pLit ("rcvd")
    , pCat [pLit ("remaining"), pWs1, pLit ("repayment")]
    , pCat [pLit ("repayment"), pWs1, pLit ("received")]
    , pCat [pLit ("remaining"), pWs0, pLit ("bal")]
    , pCat [pLit ("rem"), pDotOpt, pWs0, pLit ("bal")]
    , pCat [pLit ("underpaid"), pWs1, pLit ("by")] ]

/-- DEBIT_KEYWORDS:
(send\s+funder|to\s+funder|transfer|outgoing|ach\s*out|2670), re.I. -/
def debitKeywordsPat : Pat :=
  pAlts
    [ pCat [pLit ("send"), pWs1, pLit ("funder")]
    , pCat [pLit ("to"), pWs1, pLit ("funder")]
    , pLit ("transfer"), pLit ("outgoing")
    , pCat [pLit ("ach"), pWs0, pLit ("out")]
    , pLit ("2670") ]

/-- One REQUESTED_REMAINING_REGEX match at the head: prefix then .*? then
\$amount; yields group(2) in cents and the match length. -/
def reqRemStep (cs : List Char) : Option (Nat × Nat) :=
  stepPrefixDollar reqRemPrefixPat cs

/-- One RECEIVED_CHECK_REGEX match at the head: yields (group(2) cents,
group(0) matched characters) and the match length. -/
def recvCheckStep (cs : List Char) : Option ((Nat × List Char) × Nat) :=
  match stepPrefixDollar recvCheckPrefixPat cs with
  | some (amt, n) => some ((amt, cs.take n), n)
  | none => none

/-- One SEND_FUNDER_REGEX match at the head:
(?:to\s+)?send\s+funder[^$]*\$([0-9][0-9,]*\.[0-9]{2}), re.I. -/
def sendFunderStep (cs : List Char) : Option (Nat × Nat) :=
  firstSome ((pCat
      [ pOptG (pCat [pLit ("to"), pWs1])
      , pLit ("send"), pWs1, pLit ("funder") ]) cs)
    (fun rem =>
      let gap := rem.takeWhile (fun c => c != '$')
      match rem.drop gap.length with
      | '$' :: r2 =>
        match matchAmount2 r2 with
        | some (amt, r3) => some (amt, cs.length - r3.length)
        | none => none
      | _ => none)

/-- One DOLLAR_REGEX match at the head: \$?\s*([0-9][0-9,]*\.\d{2});
yields (cents, match length). -/
def dollarStep (cs : List Char) : Option (Nat × Nat) :=
  let start := match cs with
    | '$' :: rest => (1, rest)
    | _ => (0, cs)
  let wsRun := start.2.takeWhile isWs
  match matchAmount2 (start.2.drop wsRun.length) with
  | some (amt, r) => some (amt, cs.length - r.length)
  | none => none

-- ------------------------- extract_note_events -------------------------

inductive EvKind where
  | credit_expected
  | debit_expected
deriving DecidableEq, Repr

/-- One extracted note event: (kind, amount, anchor date). -/
abbrev NoteEvent := EvKind × Money × Option Ymd

/-- pd.Timestamp(year=y, month=m, day=d): raises on an invalid calendar
date. -/
def mkTimestamp (y : Int) (m d : Nat) : Except Unit Ymd :=
  if validYmd y m d then Except.ok ⟨y, m, d⟩ else Except.error ()

/-- The deduplication at the end of extract_note_events: first occurrence
per (kind, amount) wins. -/
def dedupeEvents (evs : List NoteEvent) : List NoteEvent :=
  (evs.foldl (fun (acc : List NoteEvent × List (EvKind × Money)) e =>
    if acc.2.contains (e.1, e.2.1) then acc
    else (acc.1 ++ [e], acc.2 ++ [(e.1, e.2.1)])) ([], [])).1

/-- The 120-character context window around a DOLLAR_REGEX match. -/
def ctxSlice (cl : List Char) (start endP : Nat) : List Char :=
  (cl.take (endP + 120)).drop (start - 120)

/-- extract_note_events(text, ref_date).  todayYear models
date.today().year, used when ref_date is missing.  The pd.Timestamp
construction for each MM/DD token can raise, hence Except. -/
def extract_note_events (todayYear : Int) (text : String) (refDate : Option Ymd) :
    Except Unit (List NoteEvent) := do
  if (pytrim text) == ("") then return []
  let year := match refDate with
    | some r => r.y
    | none => todayYear
  let dates ← (findDates text.data).mapM (fun md => mkTimestamp year md.1 md.2)
  let anchor : Option Ymd := match dates.getLast? with
    | some d => some d
    | none => refDate
  let cl := lcs text
  let fuel := cl.length + 1
  let has_rem_received := reSearch remReceivedPat cl
  let req_rem_amounts : List Money := (reIter reqRemStep fuel cl).map (fun n => (n : Int))
  -- rem repayment received: requested-remaining amounts become credits
  let step1 : List NoteEvent × List Money :=
    if has_rem_received && !req_rem_amounts.isEmpty then
      (req_rem_amounts.map (fun a => (EvKind.credit_expected, a, anchor)), req_rem_amounts)
    else ([], [])
  -- RECEIVED_CHECK_REGEX pass, skipping send-funder spans
  let recvMatches := reIter recvCheckStep fuel cl
  let step2 : List NoteEvent × List Money :=
    recvMatches.foldl (fun acc m =>
      let amt : Money := (m.1 : Int)
      if acc.2.contains amt then acc
      else if subList (lcs ("send funder")) m.2 || subList (lcs ("to funder")) m.2 then acc
      else (acc.1 ++ [(EvKind.credit_expected, amt, anchor)], acc.2 ++ [amt])) step1
  let received_amounts := step2.2
  let amounts_to_ignore := req_rem_amounts.filter (fun a => !received_amounts.contains a)
  -- SEND_FUNDER_REGEX pass
  let sfEvents : List NoteEvent :=
    ((reIter sendFunderStep fuel cl).map (fun n => ((n : Int) : Money))).filterMap
      (fun a => if amounts_to_ignore.contains a then none
                else some (EvKind.debit_expected, a, anchor))
  -- generic DOLLAR_REGEX scan with keyword context
  let dollarEvents : List NoteEvent :=
    (reIterPos dollarStep fuel 0 cl).filterMap (fun sae =>
      let a : Money := (sae.2.1 : Int)
      if amounts_to_ignore.contains a then none
      else
        let ctx := ctxSlice cl sae.1 sae.2.2
        let is_credit := reSearch creditKeywordsPat ctx
        let is_debit := reSearch debitKeywordsPat ctx
        if is_credit && !is_debit then some (EvKind.credit_expected, a, anchor)
        else if is_debit && !is_credit then some (EvKind.debit_expected, a, anchor)
        else none)
  return dedupeEvents (step2.1 ++ sfEvents ++ dollarEvents)

-- ------------------------- data model -------------------------

/-- One normalized Chase bank transaction row (output of load_chase). -/
structure ChaseRow where
  posting_date : Option Ymd
  description : String
  amount : Option Money
  recon_tag : Option String
deriving DecidableEq, Repr, Inhabited

/-- is_debit: amount.fillna(0) < 0. -/
def ChaseRow.is_debit (c : ChaseRow) : Bool := c.amount.getD 0 < 0

/-- is_credit: amount.fillna(0) > 0. -/
def ChaseRow.is_credit (c : ChaseRow) : Bool := c.amount.getD 0 > 0

/-- has_hint: description matches TRANSFER_HINTS. -/
def ChaseRow.has_hint (c : ChaseRow) : Bool :=
  containsAnyCI c.description TRANSFER_HINTS_LITS

/-- overpay_hint: description matches OVERPAY_DEBIT_HINTS. -/
def ChaseRow.overpay_hint (c : ChaseRow) : Bool :=
  containsAnyCI c.description OVERPAY_DEBIT_HINTS_LITS

/-- The non-empty ReconTag test used throughout run():
recon_tag.notna() and str(recon_tag).strip() != "". -/
def ChaseRow.tagNonempty (c : ChaseRow) : Bool :=
  match c.recon_tag with
  | some t => (pytrim t) != ("")
  | none => false

/-- One normalized ledger row (output of load_r2d). -/
structure R2DRow where
  ach_id : String
  amount_transferred : Option Money
  amount_to_funder : Option Money
  claim_id : String
  claimant : String
  deal_type : String
  contract_date : Option Ymd
  transfer_initiated : Option Ymd
  likely_arrived : Option Ymd
  repayment_amount : Option Money
  notes : String
  legacy_id : Option String
deriving DecidableEq, Repr, Inhabited

/-- window_date = likely_arrived.fillna(transfer_initiated). -/
def R2DRow.window_date (r : R2DRow) : Option Ymd :=
  match r.likely_arrived with
  | some d => some d
  | none => r.transfer_initiated

/-- A DataFrame with its integer index: list of (label, row) pairs. -/
def idxFrom {α : Type} (n : Nat) : List α → List (Nat × α)
  | [] => []
  | x :: xs => (n, x) :: idxFrom (n + 1) xs

def idxd {α : Type} (l : List α) : List (Nat × α) := idxFrom 0 l

/-- First-occurrence deduplication of a list of keys (pandas .unique, and
the set of group keys). -/
def uniqueKeep {α : Type} [DecidableEq α] : List α → List α
  | [] => []
  | x :: xs =>
    let r := uniqueKeep xs
    x :: r.filter (fun y => decide (y ≠ x))

-- ------------------------- dedupe & conflicts -------------------------

/-- One row of the conflict report detail. -/
structure AchDetail where
  claimant : String
  claim_id : String
  amount : Option Money
  date : Option Ymd
deriving DecidableEq, Repr

/-- One ACH-id conflict, listing every row of the group. -/
structure AchConflict where
  ach_id : String
  num_claims : Nat
  claims : List AchDetail
deriving DecidableEq, Repr

def R2DRow.achDetail (r : R2DRow) : AchDetail :=
  ⟨r.claimant, r.claim_id, r.amount_transferred, r.window_date⟩

/-- The distinct non-empty stripped claim ids of a group.  uniqueKeep is
pandas .unique (first-occurrence order); python set cardinality equals its
length. -/
def achUcids (group : List R2DRow) : List String :=
  uniqueKeep ((group.map (fun r => pytrim r.claim_id)).filter
    (fun s => s != ("")))

/-- The distinct non-empty stripped claimants of a group. -/
def achUclm (group : List R2DRow) : List String :=
  uniqueKeep ((group.map (fun r => pytrim r.claimant)).filter
    (fun s => s != ("")))

/-- The distinct base claimant names (AFR/Buyout suffix stripped). -/
def achBases (group : List R2DRow) : List String :=
  uniqueKeep ((achUclm group).map baseClaimantName)

/-- The conflict condition of validate_ach_id_conflicts: a group of more
than one row with at least two distinct claim ids or two distinct base
claimants. -/
def achGroupIsConflict (group : List R2DRow) : Bool :=
  group.length > 1
    && ((achUcids group).length > 1 || (achBases group).length > 1)

/-- The num_claims field of a conflict report. -/
def achNumClaims (group : List R2DRow) : Nat :=
  if (achUcids group).length > 1 then (achUcids group).length
  else (achUclm group).length

/-- The per-group conflict check inside validate_ach_id_conflicts. -/
def achGroupConflict (a : String) (group : List R2DRow) : Option AchConflict :=
  if achGroupIsConflict group then
    some ⟨a, achNumClaims group, group.map R2DRow.achDetail⟩
  else none

/-- Rows carrying a non-empty ach_id. -/
def withAchId (r2d : List R2DRow) : List R2DRow :=
  r2d.filter (fun r => r.ach_id.length > 0)

/-- validate_ach_id_conflicts.  Note: pandas groupby iterates keys in
sorted order; groups are enumerated here in first-occurrence order, which
permutes the conflict list but not its members. -/
def validate_ach_id_conflicts (r2d : List R2DRow) : List AchConflict :=
  let wi := withAchId r2d
  (uniqueKeep (wi.map (fun r => r.ach_id))).filterMap (fun a =>
    achGroupConflict a (wi.filter (fun r => r.ach_id == a)))

/-- drop_duplicates(subset=[ach_id, claim_id], keep="first"), with the seen
keys threaded explicitly. -/
def dropDupGo (seen : List (String × String)) : List R2DRow → List R2DRow
  | [] => []
  | x :: xs =>
    if seen.contains (x.ach_id, x.claim_id) then dropDupGo seen xs
    else x :: dropDupGo ((x.ach_id, x.claim_id) :: seen) xs

/-- dedupe_by_ach_id: (deduplicated rows, removed count, conflicts).  The
deduplicated output is the kept with-id rows followed by the rows without
an ach_id, re-indexed from 0 (ignore_index=True). -/
def dedupe_by_ach_id (r2d : List R2DRow) : List R2DRow × Nat × List AchConflict :=
  let conflicts := validate_ach_id_conflicts r2d
  let wi := withAchId r2d
  let wo := r2d.filter (fun r => r.ach_id.length == 0)
  let kept := dropDupGo [] wi
  (kept ++ wo, wi.length - kept.length, conflicts)

-- ------------------------- stable sort -------------------------

/-- Insert x after every element y with not lt x y: combined with the left
fold below this is a stable sort by a strict comparator, the behaviour of
the stable Python list.sort; pandas sort_values is an unstable quicksort,
which agrees with this on every tie-free key list. -/
def insertStable {α : Type} (lt : α → α → Bool) (x : α) : List α → List α
  | [] => [x]
  | y :: ys => if lt x y then x :: y :: ys else y :: insertStable lt x ys

def sortByKey {α : Type} (lt : α → α → Bool) (l : List α) : List α :=
  l.foldl (fun acc x => insertStable lt x acc) []

/-- Ascending comparison on optional day-valued keys with missing values
last (na_position="last"). -/
def optDayLt (a b : Option Ymd) : Bool :=
  match a, b with
  | some x, some y => x.toDay < y.toDay
  | some _, none => true
  | _, _ => false

def optDayEq (a b : Option Ymd) : Bool :=
  match a, b with
  | some x, some y => x.toDay == y.toDay
  | none, none => true
  | _, _ => false

-- ------------------------- debit matcher -------------------------

/-- One entry of the pass-1 potential_matches list. -/
structure DebitPot where
  r2d_index : Nat
  chase_index : Nat
  ach_id : String
  claim_id : String
  claimant : String
  amount_transferred : Money
  r2d_date : Ymd
  chase_date : Option Ymd
  chase_amount : Money
  description : String
  date_delta : Int
  has_hint : Bool
  confidence : Nat
deriving DecidableEq, Repr

/-- One debit MatchRecord.  r2d_index is a ghost field: the source dict
drops it after pass 1 (the row is identified through used_claims), but it
is the natural statement handle for the claims. -/
structure DebitMatch where
  r2d_index : Nat
  chase_index : Nat
  ach_id : String
  claim_id : String
  amount_transferred : Money
  r2d_date : Ymd
  chase_date : Option Ymd
  chase_amount : Money
  description : String
  match_type : String
  confidence : Nat
deriving DecidableEq, Repr

/-- The candidate filter shared by both passes: debits whose absolute
amount is within AMOUNT_TOL of the (absolute) transfer amount and whose
posting date lies in the given day window around the window date. -/
def debitCandidates (debits : List (Nat × ChaseRow)) (amt : Money) (win : Ymd)
    (days : Int) : List (Nat × ChaseRow) :=
  debits.filter (fun jc =>
    (match jc.2.amount with
     | some a => amountClose (intAbs a) (intAbs amt)
     | none => false)
    && inWin jc.2.posting_date win days)

/-- date_delta of a candidate relative to the window date. -/
def candDelta (win : Ymd) (c : ChaseRow) : Int :=
  intAbs ((c.posting_date.getD win).toDay - win.toDay)

/-- confidence = min(0.5 + 0.3*hint + 0.2*(delta <= 1), 0.99), in
hundredths. -/
def debitConfidence (hint : Bool) (delta : Int) : Nat :=
  min (50 + (if hint then 30 else 0) + (if delta ≤ 1 then 20 else 0)) MAX_CONFIDENCE

/-- Pass 1 collection: every (entry, debit) candidate pair over the whole
batch, skipping entries without amount or window date. -/
def collectPass1 (dedup : List (Nat × R2DRow)) (debits : List (Nat × ChaseRow)) :
    List DebitPot :=
  dedup.flatMap (fun ir =>
    match ir.2.amount_transferred, ir.2.window_date with
    | some amt, some win =>
      (debitCandidates debits amt win DATE_WINDOW_DAYS).map (fun jc =>
        let delta := candDelta win jc.2
        { r2d_index := ir.1, chase_index := jc.1
          ach_id := ir.2.ach_id, claim_id := ir.2.claim_id
          claimant := ir.2.claimant
          amount_transferred := amt, r2d_date := win
          chase_date := jc.2.posting_date, chase_amount := jc.2.amount.getD 0
          description := jc.2.description, date_delta := delta
          has_hint := jc.2.has_hint
          confidence := debitConfidence jc.2.has_hint delta })
    | _, _ => [])

/-- The pass-1 sort key: confidence descending, then date_delta ascending
(python list.sort with key (-confidence, date_delta), stable). -/
def potLt (a b : DebitPot) : Bool :=
  a.confidence > b.confidence
    || (a.confidence == b.confidence && a.date_delta < b.date_delta)

def DebitPot.toMatch (p : DebitPot) : DebitMatch :=
  { r2d_index := p.r2d_index, chase_index := p.chase_index
    ach_id := p.ach_id, claim_id := p.claim_id
    amount_transferred := p.amount_transferred, r2d_date := p.r2d_date
    chase_date := p.chase_date, chase_amount := p.chase_amount
    description := p.description, match_type := ("amount+window(+hints)")
    confidence := p.confidence }

/-- Greedy assignment over the sorted pair list: accept a pair only when
neither side is consumed yet. -/
def assignPass1 : List DebitPot → List Nat → List Nat → List DebitMatch →
    List DebitMatch × List Nat × List Nat
  | [], uc, ud, res => (res, uc, ud)
  | p :: rest, uc, ud, res =>
    if uc.contains p.r2d_index || ud.contains p.chase_index then
      assignPass1 rest uc ud res
    else
      assignPass1 rest (uc ++ [p.r2d_index]) (ud ++ [p.chase_index])
        (res ++ [p.toMatch])

/-- State threaded through pass 2: results (continuing pass 1), the
used-debit set, and the unmatched entry indices. -/
structure P2State where
  results : List DebitMatch
  usedDebits : List Nat
  unmatchedIdx : List Nat
deriving Repr

/-- The pass-2 candidate ordering: has_hint descending, then date_delta
ascending. -/
def p2CandLt (win : Ymd) (a b : Nat × ChaseRow) : Bool :=
  (a.2.has_hint && !b.2.has_hint)
    || (a.2.has_hint == b.2.has_hint && candDelta win a.2 < candDelta win b.2)

/-- One pass-2 iteration for one deduplicated entry.  Entries whose
claim_id already appears among the (growing) results are skipped
altogether; entries without amount or window date, without candidates, or
whose surviving candidates are all consumed go to unmatchedIdx. -/
def pass2Step (debits : List (Nat × ChaseRow)) (st : P2State) (ir : Nat × R2DRow) :
    P2State :=
  if st.results.any (fun r => r.claim_id == ir.2.claim_id) then st
  else
    match ir.2.amount_transferred, ir.2.window_date with
    | some amt, some win =>
      let cand := debitCandidates debits amt win DATE_WINDOW_DAYS_WIDE
      if cand.isEmpty then { st with unmatchedIdx := st.unmatchedIdx ++ [ir.1] }
      else
        match (sortByKey (p2CandLt win) cand).find?
            (fun jc => !(st.usedDebits.contains jc.1)) with
        | some jc =>
          let delta := candDelta win jc.2
          { results := st.results ++
              [{ r2d_index := ir.1, chase_index := jc.1
                 ach_id := ir.2.ach_id, claim_id := ir.2.claim_id
                 amount_transferred := amt, r2d_date := win
                 chase_date := jc.2.posting_date
                 chase_amount := jc.2.amount.getD 0
                 description := jc.2.description
                 match_type := ("amount+extended_window")
                 confidence := debitConfidence jc.2.has_hint delta }]
            usedDebits := st.usedDebits ++ [jc.1]
            unmatchedIdx := st.unmatchedIdx }
        | none => { st with unmatchedIdx := st.unmatchedIdx ++ [ir.1] }
    | _, _ => { st with unmatchedIdx := st.unmatchedIdx ++ [ir.1] }

/-- Output of match_debits_relaxed. -/
structure DebitsOut where
  results : List DebitMatch
  dedup : List R2DRow
  unmatched : List (Nat × R2DRow)
  orphans : List (Nat × ChaseRow)
  dupRemoved : Nat
  usedDebitIdx : List Nat
  conflicts : List AchConflict
deriving Repr

/-- match_debits_relaxed over the indexed Chase table. -/
def match_debits_relaxed (r2d : List R2DRow) (ichase : List (Nat × ChaseRow)) :
    DebitsOut :=
  let dd := dedupe_by_ach_id r2d
  let dedup := dd.1
  let debits := ichase.filter (fun jc => jc.2.is_debit)
  let pots := sortByKey potLt (collectPass1 (idxd dedup) debits)
  let a1 := assignPass1 pots [] [] []
  let st := (idxd dedup).foldl (pass2Step debits) ⟨a1.1, a1.2.2, []⟩
  let usedIdx := st.results.map (fun r => r.chase_index)
  { results := st.results
    dedup := dedup
    unmatched := (idxd dedup).filter (fun ir => st.unmatchedIdx.contains ir.1)
    orphans := debits.filter (fun jc => !(usedIdx.contains jc.1))
    dupRemoved := dd.2.1
    usedDebitIdx := usedIdx
    conflicts := dd.2.2 }

-- ------------------------- credit matcher -------------------------

/-- re.search(r"\bafr", deal_type, re.I): an "afr" with a word boundary
before it. -/
def wordStartSearch (nd : List Char) : Bool → List Char → Bool
  | _, [] => false
  | prevWord, cs@(c :: rest) =>
    (!prevWord && nd.isPrefixOf cs) || wordStartSearch nd (isWordChar c) rest

def isAfrDeal (s : String) : Bool := wordStartSearch (lcs ("afr")) false (lcs s)

/-- canonical_parent: prefer non-AFR rows, earliest contract_date
(tie-broken by window_date) when any contract date exists, else earliest
window_date; missing dates sort last; the chosen claimant loses its
trailing parenthetical. -/
def canonical_parent (grp : List R2DRow) : R2DRow :=
  let candidates :=
    if grp.any (fun r => !(isAfrDeal r.deal_type)) then
      grp.filter (fun r => !(isAfrDeal r.deal_type))
    else grp
  let sorted :=
    if candidates.any (fun r => r.contract_date.isSome) then
      sortByKey (fun a b =>
        optDayLt a.contract_date b.contract_date
          || (optDayEq a.contract_date b.contract_date
              && optDayLt a.window_date b.window_date)) candidates
    else
      sortByKey (fun a b => optDayLt a.window_date b.window_date) candidates
  let parent := sorted.headD default
  { parent with claimant := stripParenSuffix parent.claimant }

/-- One row of the per-claim rollup (the roll DataFrame). -/
structure RollRow where
  claim_id : String
  repayment_sum : Money
  amount_to_funder_sum : Money
  amount_transferred_sum : Money
  ref_date : Option Ymd
  overpaid_sum : Option Money
  notes_any : String
  claimant : String
  deal_type : String
  contract_date : Option Ymd
deriving DecidableEq, Repr, Inhabited

/-- pandas sum over a nullable column: skip missing, empty sum is 0. -/
def optSum (l : List (Option Money)) : Money :=
  (l.filterMap id).foldl (fun a b => a + b) 0

/-- pandas max over a nullable date column. -/
def optMaxDay (l : List (Option Ymd)) : Option Ymd :=
  (l.filterMap id).foldl (fun acc d =>
    match acc with
    | none => some d
    | some a => if d.toDay > a.toDay then some d else acc) none

/-- pandas max over a nullable money column. -/
def optMaxMoney (l : List (Option Money)) : Option Money :=
  (l.filterMap id).foldl (fun acc v =>
    match acc with
    | none => some v
    | some a => if v > a then some v else acc) none

/-- _prepare_credit_matching_data: group ledger rows by claim_id, sum the
amounts, take the latest window date, the max parsed overpaid amount, the
joined notes, and the canonical parent fields. -/
def _prepare_credit_matching_data (r2d : List R2DRow) : List RollRow :=
  (uniqueKeep (r2d.map (fun r => r.claim_id))).map (fun c =>
    let grp := r2d.filter (fun r => r.claim_id == c)
    let parent := canonical_parent grp
    { claim_id := c
      repayment_sum := optSum (grp.map (fun r => r.repayment_amount))
      amount_to_funder_sum := optSum (grp.map (fun r => r.amount_to_funder))
      amount_transferred_sum := optSum (grp.map (fun r => r.amount_transferred))
      ref_date := optMaxDay (grp.map (fun r => r.window_date))
      overpaid_sum := optMaxMoney (grp.map (fun r => parse_overpaid_amount r.notes))
      notes_any := String.intercalate (" | ") (grp.map (fun r => r.notes))
      claimant := parent.claimant
      deal_type := parent.deal_type
      contract_date := parent.contract_date })

/-- transferred_repayment_diff = abs(repayment_sum - amount_transferred_sum). -/
def transferredRepaymentDiff (r : RollRow) : Int :=
  intAbs (r.repayment_sum - r.amount_transferred_sum)

/-- The priority order of _setup_priority_sorting: repayment_group
(= repayment_sum rounded to cents, which is the identity here) descending,
then transferred_repayment_diff ascending. -/
def rollLt (a b : RollRow) : Bool :=
  a.repayment_sum > b.repayment_sum
    || (a.repayment_sum == b.repayment_sum
        && transferredRepaymentDiff a < transferredRepaymentDiff b)

def _setup_priority_sorting (roll : List RollRow) : List RollRow :=
  sortByKey rollLt roll

/-- diff of a credit amount against a target amount. -/
def candDiff (target : Money) (c : ChaseRow) : Int :=
  intAbs (c.amount.getD 0 - target)

/-- date_delta of a credit against the claim ref_date (the scalar 0 when
the ref_date is missing, as in the code). -/
def refDelta (refd : Option Ymd) (c : ChaseRow) : Int :=
  match refd with
  | some rd => intAbs ((c.posting_date.getD rd).toDay - rd.toDay)
  | none => 0

/-- The candidate ordering used by strategies A and C:
(diff, date_delta, posting_date) ascending. -/
def stratSortLt (target : Money) (refd : Option Ymd) (a b : Nat × ChaseRow) : Bool :=
  candDiff target a.2 < candDiff target b.2
    || (candDiff target a.2 == candDiff target b.2
        && (refDelta refd a.2 < refDelta refd b.2
            || (refDelta refd a.2 == refDelta refd b.2
                && optDayLt a.2.posting_date b.2.posting_date)))

/-- Strategy A: repayment_sum plus overpay, only when the overpay exceeds
the tolerance. -/
def _try_match_repayment_plus_overpay (cand : List (Nat × ChaseRow))
    (repayment_sum over_x : Money) (used : List Nat) (refd : Option Ymd) :
    Option (Nat × ChaseRow) :=
  if over_x ≤ AMOUNT_TOL then none
  else (sortByKey (stratSortLt (repayment_sum + over_x) refd) cand).find?
    (fun jc => !(used.contains jc.1)
      && amountClose (jc.2.amount.getD 0) (repayment_sum + over_x))

/-- claimant.replace(",", ""): drop every comma. -/
def removeCommas (s : String) : String :=
  String.mk (s.data.filter (fun c => c != ','))

/-- The claimant name tokens used by the FEDWIRE strategy: commas removed,
whitespace split, stripped, upper-cased, tokens longer than 2 kept. -/
def nameParts (claimant : String) : List String :=
  ((splitWs (removeCommas claimant)).filter
      (fun p => (pytrim p).length > 2)).map
    (fun p => String.mk (ucs (pytrim p)))

/-- Strategy B: FEDWIRE credits whose description contains every name
token, exact repayment amount, any date. -/
def _try_match_fedwire_by_name (credits : List (Nat × ChaseRow))
    (claimant : String) (repayment_sum : Money) (used : List Nat) :
    Option (Nat × ChaseRow) :=
  let parts := nameParts claimant
  if parts.length < 2 then none
  else (credits.filter (fun jc => containsCI jc.2.description ("FEDWIRE"))).find?
    (fun jc => !(used.contains jc.1)
      && amountClose (jc.2.amount.getD 0) repayment_sum
      && parts.all (fun p => subList p.data (ucs jc.2.description)))

/-- Strategy C: nearest unconsumed credit with the exact repayment amount. -/
def _try_match_exact_repayment (cand : List (Nat × ChaseRow))
    (repayment_sum : Money) (used : List Nat) (refd : Option Ymd) :
    Option (Nat × ChaseRow) :=
  (sortByKey (stratSortLt repayment_sum refd) cand).find?
    (fun jc => !(used.contains jc.1)
      && amountClose (jc.2.amount.getD 0) repayment_sum)

/-- The candidate ordering of _find_overpay_debit: overpay_hint
descending, posting_date ascending. -/
def overpayDebitLt (a b : Nat × ChaseRow) : Bool :=
  (a.2.overpay_hint && !b.2.overpay_hint)
    || (a.2.overpay_hint == b.2.overpay_hint
        && optDayLt a.2.posting_date b.2.posting_date)

/-- _find_overpay_debit: companion debit with the overpay amount, near the
credit date first, else near the ref date; the first unconsumed candidate. -/
def _find_overpay_debit (debits : List (Nat × ChaseRow)) (over_x : Money)
    (credit_date : Option Ymd) (ref_date : Option Ymd) (used : List Nat) :
    Option (Nat × ChaseRow) :=
  let dwin := debits.filter (fun jc =>
    match jc.2.amount with
    | some a => amountClose (intAbs a) over_x
    | none => false)
  let near_credit := dwin.filter (fun jc =>
    match credit_date with
    | some cd => inWin jc.2.posting_date cd DATE_WINDOW_DAYS
    | none => false)
  match (sortByKey overpayDebitLt near_credit).find?
      (fun jc => !(used.contains jc.1)) with
  | some jc => some jc
  | none =>
    match ref_date with
    | some rd =>
      let dnear_ref := dwin.filter (fun jc =>
        inWin jc.2.posting_date rd OVERPAY_BACKFILL_WINDOW)
      (sortByKey overpayDebitLt dnear_ref).find? (fun jc => !(used.contains jc.1))
    | none => none

/-- Python truthiness of the chosen pandas index label: the source guards
with pythonic "if chosen_idx:" and "if not chosen_idx:", under which the
label 0 and None are both falsy. -/
def pyTruthy : Option Nat → Bool
  | some n => n != 0
  | none => false

/-- One credit MatchRecord.  chase_credit_idx and overpay_debit_idx are
ghost fields (the indices the code adds to used_credit and
used_overpay_debit). -/
structure CreditMatch where
  claim_id : String
  claimant : String
  repayment_sum : Money
  amount_to_funder_sum : Money
  ref_date : Option Ymd
  match_mode : String
  chase_credit_idx : Nat
  chase_credit_date : Option Ymd
  chase_credit_amount : Money
  overpay_amount : Money
  overpay_debit_idx : Option Nat
  overpay_debit_date : Option Ymd
  overpay_debit_desc : Option String
  notes : String
deriving DecidableEq, Repr

structure CreditState where
  results : List CreditMatch
  used_credit : List Nat
  used_overpay_debit : List Nat
  unmatched_claims : List String
deriving Repr

/-- The strategy cascade of the per-claim credit loop: A (repayment plus
overpay), then B (FEDWIRE by name), then C (exact repayment); yields the
chosen credit and the match mode. -/
def creditSelect (cand credits : List (Nat × ChaseRow))
    (repayment_sum over_x : Money) (claimant : String) (used : List Nat)
    (ref_date : Option Ymd) : Option (Nat × ChaseRow) × Option String :=
  let chA := _try_match_repayment_plus_overpay cand repayment_sum over_x
      used ref_date
  let mA : Option String :=
    if pyTruthy (chA.map (fun jc => jc.1)) then some ("repayment_sum_plus_overpay")
    else none
  let s2 : Option (Nat × ChaseRow) × Option String :=
    if pyTruthy (chA.map (fun jc => jc.1)) then (chA, mA)
    else
      let chB := _try_match_fedwire_by_name credits claimant repayment_sum
          used
      (chB, if pyTruthy (chB.map (fun jc => jc.1)) then some ("fedwire_name_match")
            else none)
  if pyTruthy (s2.1.map (fun jc => jc.1)) then s2
  else
    let chC := _try_match_exact_repayment cand repayment_sum used
        ref_date
    (chC, if pyTruthy (chC.map (fun jc => jc.1)) then some ("repayment_sum")
          else none)

/-- The credit candidate pool of one claim: all credits when there is no
reference date, else the credits inside the date window (widened to the
overpay backfill window when an overpayment above tolerance is noted). -/
def creditCand (credits : List (Nat × ChaseRow)) (over_x : Money)
    (ref_date : Option Ymd) : List (Nat × ChaseRow) :=
  let win_days :=
    if over_x > AMOUNT_TOL then max DATE_WINDOW_DAYS OVERPAY_BACKFILL_WINDOW
    else DATE_WINDOW_DAYS
  match ref_date with
  | some rd => credits.filter (fun jc => inWin jc.2.posting_date rd win_days)
  | none => credits

/-- The body of the per-claim loop of match_credits_one_row_per_claim. -/
def creditStep (credits debits : List (Nat × ChaseRow)) (st : CreditState)
    (r : RollRow) : CreditState :=
  if r.repayment_sum ≤ 0 then
    { st with unmatched_claims := st.unmatched_claims ++ [r.claim_id] }
  else
    let repayment_sum := r.repayment_sum
    let ref_date := r.ref_date
    let over_x : Money := r.overpaid_sum.getD 0
    let cand := creditCand credits over_x ref_date
    let s3 : Option (Nat × ChaseRow) × Option String :=
      creditSelect cand credits repayment_sum over_x r.claimant
        st.used_credit ref_date
    if pyTruthy (s3.1.map (fun jc => jc.1)) then
      match s3.1 with
      | some jc =>
        let od :=
          if s3.2 == some ("repayment_sum_plus_overpay") && over_x > AMOUNT_TOL then
            _find_overpay_debit debits over_x jc.2.posting_date ref_date
              st.used_overpay_debit
          else none
        { results := st.results ++
            [{ claim_id := r.claim_id, claimant := r.claimant
               repayment_sum := repayment_sum
               amount_to_funder_sum := r.amount_to_funder_sum
               ref_date := ref_date
               match_mode := s3.2.getD ("")
               chase_credit_idx := jc.1
               chase_credit_date := jc.2.posting_date
               chase_credit_amount := jc.2.amount.getD 0
               overpay_amount :=
                 if s3.2 == some ("repayment_sum_plus_overpay") then over_x else 0
               overpay_debit_idx := od.map (fun d => d.1)
               overpay_debit_date := od.bind (fun d => d.2.posting_date)
               overpay_debit_desc := od.map (fun d => d.2.description)
               notes := r.notes_any }]
          used_credit := st.used_credit ++ [jc.1]
          used_overpay_debit := st.used_overpay_debit ++
            (match od with | some d => [d.1] | none => [])
          unmatched_claims := st.unmatched_claims }
      | none => st
    else { st with unmatched_claims := st.unmatched_claims ++ [r.claim_id] }

/-- The sorted loop of the credit matcher over an already prepared roll. -/
def match_credits_from_roll (roll : List RollRow) (ichase : List (Nat × ChaseRow)) :
    CreditState :=
  let credits := ichase.filter (fun jc => jc.2.is_credit)
  let debits := ichase.filter (fun jc => jc.2.is_debit)
  (_setup_priority_sorting roll).foldl (creditStep credits debits) ⟨[], [], [], []⟩

/-- Output of match_credits_one_row_per_claim. -/
structure CreditsOut where
  results : List CreditMatch
  unmatched_rows : List RollRow
  credits_unmatched : List (Nat × ChaseRow)
  per_claim : List RollRow
  over_adj : List CreditMatch
  used_credit_idx : List Nat
  used_overpay_debit : List Nat
deriving Repr

def match_credits_one_row_per_claim (r2d : List R2DRow)
    (ichase : List (Nat × ChaseRow)) : CreditsOut :=
  let roll := _prepare_credit_matching_data r2d
  let st := match_credits_from_roll roll ichase
  let credits := ichase.filter (fun jc => jc.2.is_credit)
  { results := st.results
    unmatched_rows := roll.filter (fun r => st.unmatched_claims.contains r.claim_id)
    credits_unmatched := credits.filter (fun jc => !(st.used_credit.contains jc.1))
    per_claim := roll
    over_adj := st.results.filter (fun m => m.overpay_amount > AMOUNT_TOL)
    used_credit_idx := st.used_credit
    used_overpay_debit := st.used_overpay_debit }

-- ------------------------- notes matcher -------------------------

/-- String max, the claimant aggregation of the notes-matcher rollup. -/
def strMax (l : List String) : String :=
  l.foldl (fun a b => if a < b then b else a) ("")

/-- The 150-character note excerpt of the ReconTag report rows. -/
def excerpt (s : String) : String :=
  if s.data.length > 150 then String.mk (s.data.take 150) ++ ("...") else s

/-- One row of the notes-matcher rollup. -/
structure NoteRollRow where
  claim_id : String
  ref_date : Option Ymd
  notes_any : String
  claimant : String
  claimant_display : String
deriving Repr

/-- The per-claim rollup of match_from_notes: joined non-empty notes, max
window date, max claimant string. -/
def noteRoll (r2d : List R2DRow) : List NoteRollRow :=
  (uniqueKeep (r2d.map (fun r => r.claim_id))).map (fun c =>
    let grp := r2d.filter (fun r => r.claim_id == c)
    let claimant := strMax (grp.map (fun r => r.claimant))
    { claim_id := c
      ref_date := optMaxDay (grp.map (fun r => r.window_date))
      notes_any := String.intercalate (" | ")
        ((grp.map (fun r => r.notes)).filter (fun s => (pytrim s) != ("")))
      claimant := claimant
      claimant_display := stripParenSuffix claimant })

/-- One matched note debit; matched_debit_idx is the ghost index
(chosen.name in the source). -/
structure NoteDebitRow where
  claim_id : String
  claimant : String
  note_amount : Money
  matched_debit_idx : Nat
  matched_debit_date : Option Ymd
  matched_debit_amount : Money
  matched_debit_desc : String
deriving DecidableEq, Repr

/-- One row of the ReconTags report (status MATCHED or SUGGESTED). -/
structure ReconTagRow where
  status : String
  claim_id : String
  claimant : String
  expected_amount : Money
  matched_credit_amount : Option Money
  matched_credit_date : Option Ymd
  potential_chase_credit : Option Money
  potential_chase_date : Option Ymd
  note_excerpt : String
deriving Repr

/-- Candidate ordering by posting date (sort_values("posting_date")). -/
def postingLt (a b : Nat × ChaseRow) : Bool :=
  optDayLt a.2.posting_date b.2.posting_date

/-- The tagged credits, as (trimmed tag, row) pairs in row order: the
recontag_credits dictionary of match_from_notes. -/
def taggedCreditRows (ichase : List (Nat × ChaseRow)) : List (String × ChaseRow) :=
  (ichase.filter (fun p => p.2.is_credit && p.2.tagNonempty)).map
    (fun p => (pytrim (p.2.recon_tag.getD ("")), p.2))

structure NotesState where
  note_debits : List NoteDebitRow
  newly_used_debit : List Nat
  matched_rows : List ReconTagRow
  suggested_rows : List ReconTagRow
deriving Repr

/-- Handling of one extracted note event for one claim. -/
def noteEventStep (credits debits : List (Nat × ChaseRow))
    (used_credit_idx used_debit_idx : List Nat)
    (tagged : List (String × ChaseRow)) (r : NoteRollRow) (st : NotesState)
    (ev : NoteEvent) : NotesState :=
  match ev with
  | (EvKind.credit_expected, amount, anchor) =>
    let claim_id := pytrim r.claim_id
    let mine := tagged.filter (fun tc => tc.1 == claim_id)
    if !mine.isEmpty then
      -- claim already has ReconTagged credits: report them as MATCHED
      { st with matched_rows := st.matched_rows ++ mine.map (fun tc =>
          { status := ("MATCHED"), claim_id := r.claim_id
            claimant := r.claimant_display, expected_amount := amount
            matched_credit_amount := tc.2.amount
            matched_credit_date := tc.2.posting_date
            potential_chase_credit := none, potential_chase_date := none
            note_excerpt := excerpt r.notes_any }) }
    else
      -- no auto-match: best-effort candidate, then a SUGGESTED row
      let cnd0 := credits.filter (fun jc => !(used_credit_idx.contains jc.1))
      let cnd1 : List (Nat × ChaseRow) :=
        match anchor with
        | some a => cnd0.filter (fun jc => inWin jc.2.posting_date a NOTE_WINDOW_DAYS)
        | none => cnd0
      let cnd2 := cnd1.filter (fun jc => amountClose (jc.2.amount.getD 0) amount)
      let potential : Option (Nat × ChaseRow) :=
        if !cnd2.isEmpty then (sortByKey postingLt cnd2).head?
        else
          match r.ref_date with
          | some rd =>
            let cnd3 := (credits.filter (fun jc => !(used_credit_idx.contains jc.1))).filter
              (fun jc => inWin jc.2.posting_date rd
                (NOTE_WINDOW_DAYS + NOTE_WINDOW_DAYS_EXTENDED))
            (sortByKey postingLt (cnd3.filter
              (fun jc => amountClose (jc.2.amount.getD 0) amount))).head?
          | none => none
      { st with suggested_rows := st.suggested_rows ++
          [{ status := ("SUGGESTED"), claim_id := r.claim_id
             claimant := r.claimant_display, expected_amount := amount
             matched_credit_amount := none, matched_credit_date := none
             potential_chase_credit := potential.map (fun jc => jc.2.amount.getD 0)
             potential_chase_date := potential.bind (fun jc => jc.2.posting_date)
             note_excerpt := excerpt r.notes_any }] }
  | (EvKind.debit_expected, amount, anchor) =>
    let excl := used_debit_idx ++ st.newly_used_debit
    let dnd0 := debits.filter (fun jc => !(excl.contains jc.1))
    let dnd1 : List (Nat × ChaseRow) :=
      match anchor with
      | some a => dnd0.filter (fun jc => inWin jc.2.posting_date a NOTE_WINDOW_DAYS)
      | none => dnd0
    let dnd2 := dnd1.filter (fun jc =>
      amountClose (intAbs (jc.2.amount.getD 0)) amount)
    let chosen : Option (Nat × ChaseRow) :=
      if !dnd2.isEmpty then (sortByKey postingLt dnd2).head?
      else
        match r.ref_date with
        | some rd =>
          let dnd3 := (debits.filter (fun jc => !(excl.contains jc.1))).filter
            (fun jc => inWin jc.2.posting_date rd
              (NOTE_WINDOW_DAYS + NOTE_WINDOW_DAYS_EXTENDED))
          (sortByKey postingLt (dnd3.filter
            (fun jc => amountClose (intAbs (jc.2.amount.getD 0)) amount))).head?
        | none => none
    match chosen with
    | some jc =>
      { st with
        note_debits := st.note_debits ++
          [{ claim_id := r.claim_id, claimant := r.claimant_display
             note_amount := amount, matched_debit_idx := jc.1
             matched_debit_date := jc.2.posting_date
             matched_debit_amount := jc.2.amount.getD 0
             matched_debit_desc := jc.2.description }]
        newly_used_debit := st.newly_used_debit ++ [jc.1] }
    | none => st

/-- Output of match_from_notes.  note_credit_rows is never appended by the
source (credits are only suggested, never auto-matched), so
newly_used_credit is always empty. -/
structure NotesOut where
  note_debits : List NoteDebitRow
  newly_used_credit : List Nat
  newly_used_debit : List Nat
  recontags : List ReconTagRow
deriving Repr

def match_from_notes (todayYear : Int) (r2d : List R2DRow)
    (ichase : List (Nat × ChaseRow)) (used_credit_idx used_debit_idx : List Nat) :
    Except Unit NotesOut := do
  let credits := ichase.filter (fun jc => jc.2.is_credit)
  let debits := ichase.filter (fun jc => jc.2.is_debit)
  let tagged := taggedCreditRows ichase
  let roll := noteRoll r2d
  let evss ← roll.mapM (fun r =>
    (extract_note_events todayYear r.notes_any r.ref_date).map (fun evs => (r, evs)))
  let st := evss.foldl (fun st rv =>
      rv.2.foldl (noteEventStep credits debits used_credit_idx used_debit_idx
        tagged rv.1) st)
    ⟨[], [], [], []⟩
  return { note_debits := st.note_debits
           newly_used_credit := []
           newly_used_debit := st.newly_used_debit
           recontags := st.matched_rows ++ st.suggested_rows }

-- ------------------------- revenue & run -------------------------

/-- One row of Per_Claim_Revenue.  eff_before_tags is a ghost field
recording Bank Credits (Effective) before the ReconTag merge. -/
structure RevRow where
  claim_id : String
  claimant : String
  repayment_sum : Money
  amount_to_funder_sum : Money
  bank_credits_effective : Money
  bank_funder_debits : Money
  bank_based_revenue : Money
  book_revenue : Money
  check_delta : Money
  eff_before_tags : Money
deriving DecidableEq, Repr

/-- The overpay-adjustment triples (claim_id, matched_debit_date,
overpay_amount) used to exclude already-processed debits. -/
def overAdjTriples (over_adj : List CreditMatch) : List (String × Option Ymd × Money) :=
  over_adj.map (fun oa => (oa.claim_id, oa.overpay_debit_date, oa.overpay_amount))

/-- The overpay/funder split test on a debit match: match_type contains
"overpay" or the description contains OVERPAY_DESC_PATTERN
("Online Transfer", case-insensitively). -/
def isOverpayDebit (r : DebitMatch) : Bool :=
  containsCI r.match_type ("overpay") || containsCI r.description ("Online Transfer")

/-- compute_bank_revenue_per_claim.  note_c is always empty (see
match_from_notes), and note debits carry no context column, so every note
debit counts as a funder debit. -/
def compute_bank_revenue_per_claim (d_match : List DebitMatch)
    (c_match : List CreditMatch) (note_d : List NoteDebitRow)
    (per_claim : List RollRow) (over_adj : List CreditMatch) : List RevRow :=
  let cm_per : String → Money := fun cid =>
    ((c_match.filter (fun m => m.claim_id == cid)).map
      (fun m => m.chase_credit_amount)).foldl (fun a b => a + b) 0
  let triples := overAdjTriples over_adj
  let d_filtered := d_match.filter (fun r =>
    !(triples.contains (r.claim_id, r.chase_date, intAbs r.chase_amount)))
  let overpay_per : String → Money := fun cid =>
    (((d_filtered.filter isOverpayDebit).filter (fun r => r.claim_id == cid)).map
      (fun r => intAbs r.chase_amount)).foldl (fun a b => a + b) 0
  let funder_per : String → Money := fun cid =>
    (((d_filtered.filter (fun r => !(isOverpayDebit r))).filter
        (fun r => r.claim_id == cid)).map
      (fun r => intAbs r.chase_amount)).foldl (fun a b => a + b) 0
  let note_funder_per : String → Money := fun cid =>
    ((note_d.filter (fun n => n.claim_id == cid)).map
      (fun n => intAbs n.matched_debit_amount)).foldl (fun a b => a + b) 0
  let overpay_adj_per : String → Money := fun cid =>
    ((over_adj.filter (fun oa => oa.claim_id == cid)).map
      (fun oa => oa.overpay_amount)).foldl (fun a b => a + b) 0
  per_claim.map (fun p =>
    let eff := cm_per p.claim_id - overpay_per p.claim_id - overpay_adj_per p.claim_id
    let fd := funder_per p.claim_id + note_funder_per p.claim_id
    let book := p.repayment_sum - p.amount_to_funder_sum
    { claim_id := p.claim_id
      claimant := stripParenSuffix p.claimant
      repayment_sum := p.repayment_sum
      amount_to_funder_sum := p.amount_to_funder_sum
      bank_credits_effective := eff
      bank_funder_debits := fd
      bank_based_revenue := eff - fd
      book_revenue := book
      check_delta := (eff - fd) - book
      eff_before_tags := eff })

/-- The tagged credit rows of the Chase table. -/
def taggedCreditsOf (ichase : List (Nat × ChaseRow)) : List (Nat × ChaseRow) :=
  ichase.filter (fun p => p.2.is_credit && p.2.tagNonempty)

/-- The tagged debit rows of the Chase table. -/
def taggedDebitsOf (ichase : List (Nat × ChaseRow)) : List (Nat × ChaseRow) :=
  ichase.filter (fun p => p.2.is_debit && p.2.tagNonempty)

/-- tagged.groupby("recon_tag")["amount"].sum() looked up at claim c with
fillna(0). -/
def taggedCreditSum (ichase : List (Nat × ChaseRow)) (c : String) : Money :=
  (((taggedCreditsOf ichase).filter
      (fun p => pytrim (p.2.recon_tag.getD ("")) == c)).map
    (fun p => p.2.amount.getD 0)).foldl (fun a b => a + b) 0

/-- The (claim, amount) pairs of overpay adjustments already deducted. -/
def alreadyProcessedPairs (over_adj : List CreditMatch) : List (String × Money) :=
  over_adj.filterMap (fun oa =>
    let cid := pytrim oa.claim_id
    let amt := intAbs oa.overpay_amount
    if cid != ("") && amt > AMOUNT_TOL then some (cid, amt) else none)

/-- The tagged debits surviving the already-processed filter. -/
def filteredTaggedDebits (ichase : List (Nat × ChaseRow))
    (over_adj : List CreditMatch) : List (Nat × ChaseRow) :=
  (taggedDebitsOf ichase).filter (fun p =>
    !((alreadyProcessedPairs over_adj).contains
      (pytrim (p.2.recon_tag.getD ("")), intAbs (p.2.amount.getD 0))))

/-- Absolute tagged-debit sum by claim over the filtered tagged debits,
with fillna(0). -/
def taggedDebitSumF (ichase : List (Nat × ChaseRow))
    (over_adj : List CreditMatch) (c : String) : Money :=
  ((filteredTaggedDebits ichase over_adj).filter
      (fun p => pytrim (p.2.recon_tag.getD ("")) == c)).foldl
    (fun a p => a + intAbs (p.2.amount.getD 0)) 0

/-- run() step: merge ReconTagged credits into Bank Credits (Effective);
skipped when there are no tagged credits at all. -/
def applyTagCredits (ichase : List (Nat × ChaseRow)) (rows : List RevRow) :
    List RevRow :=
  if (taggedCreditsOf ichase).isEmpty then rows
  else rows.map (fun p =>
    let cid := pytrim p.claim_id
    let eff := p.bank_credits_effective + taggedCreditSum ichase cid
    { p with claim_id := cid
             bank_credits_effective := eff
             bank_based_revenue := eff - p.bank_funder_debits
             check_delta := (eff - p.bank_funder_debits) - p.book_revenue })

/-- run() step: deduct ReconTagged debits (overpayment returns); skipped
when there are no tagged debits at all. -/
def applyTagDebits (ichase : List (Nat × ChaseRow)) (over_adj : List CreditMatch)
    (rows : List RevRow) : List RevRow :=
  if (taggedDebitsOf ichase).isEmpty then rows
  else rows.map (fun p =>
    let cid := pytrim p.claim_id
    let eff := p.bank_credits_effective - taggedDebitSumF ichase over_adj cid
    { p with claim_id := cid
             bank_credits_effective := eff
             bank_based_revenue := eff - p.bank_funder_debits
             check_delta := (eff - p.bank_funder_debits) - p.book_revenue })

/-- The outputs of run() that the claims are about. -/
structure RunOut where
  d_match : List DebitMatch
  d_un : List (Nat × R2DRow)
  conflicts : List AchConflict
  used_debit_idx : List Nat
  c_match : List CreditMatch
  c_un_claims : List RollRow
  over_adj : List CreditMatch
  used_credit_idx : List Nat
  used_overpay_debit : List Nat
  note_debits : List NoteDebitRow
  newly_used_debit : List Nat
  recontags : List ReconTagRow
  credits_unmatched_final : List (Nat × ChaseRow)
  debits_orphans_final : List (Nat × ChaseRow)
  per_claim_rev : List RevRow
deriving Repr

/-- The Chase pool handed to the credit matcher by run(): the indexed
table without the ReconTagged credit rows. -/
def chaseForOf (chase : List ChaseRow) : List (Nat × ChaseRow) :=
  let ichase := idxd chase
  let recontagCreditIdx := (taggedCreditsOf ichase).map (fun p => p.1)
  ichase.filter (fun p => !(recontagCreditIdx.contains p.1))

/-- The run() orchestration, from loaded tables to the reconciliation
outputs (the spreadsheet serialization and display-only enrichments are
out of scope).  todayYear models date.today().year inside note-event
extraction; cutoff models the optional ignore_debits_before argument. -/
def runModel (todayYear : Int) (r2d : List R2DRow) (chase : List ChaseRow)
    (cutoff : Option Ymd) : Except Unit RunOut := do
  let ichase := idxd chase
  -- pre-filter ReconTag credits from the main matching pool
  let chaseFor := chaseForOf chase
  -- debits
  let D := match_debits_relaxed r2d ichase
  -- credits (+ overpay), on the pool without tagged credits
  let C := match_credits_one_row_per_claim r2d chaseFor
  -- remove overpay-linked debits from the orphans
  let d_orph2 := D.orphans.filter (fun p => !(C.used_overpay_debit.contains p.1))
  -- notes pass
  let N ← match_from_notes todayYear r2d ichase C.used_credit_idx D.usedDebitIdx
  -- unmatched views net of note-derived uses
  let credits_unmatched1 := C.credits_unmatched.filter
    (fun p => !(N.newly_used_credit.contains p.1))
  let debits_orphans1 := d_orph2.filter (fun p => !(N.newly_used_debit.contains p.1))
  -- hide tagged credit rows from CHASE unmatched credits
  let tagged_idx := (taggedCreditsOf ichase).map (fun p => p.1)
  let credits_unmatched2 := credits_unmatched1.filter
    (fun p => !(tagged_idx.contains p.1))
  -- optional cutoff filtering of old unmatched debits
  let debits_orphans2 : List (Nat × ChaseRow) :=
    match cutoff with
    | some cut => debits_orphans1.filter (fun p =>
        match p.2.posting_date with
        | some d => !(d.toDay < cut.toDay)
        | none => true)
    | none => debits_orphans1
  let d_un2 : List (Nat × R2DRow) :=
    match cutoff with
    | some cut => D.unmatched.filter (fun p =>
        match p.2.transfer_initiated with
        | some d => !(d.toDay < cut.toDay)
        | none => true)
    | none => D.unmatched
  -- per-claim revenue, then ReconTag credit additions and debit deductions
  let rev0 := compute_bank_revenue_per_claim D.results C.results N.note_debits
    C.per_claim C.over_adj
  let rev1 := applyTagCredits ichase rev0
  let rev2 := applyTagDebits ichase C.over_adj rev1
  -- hide (filtered) tagged debits from CHASE unmatched debits
  let tagged_debit_idx := (filteredTaggedDebits ichase C.over_adj).map (fun p => p.1)
  let debits_orphans3 := debits_orphans2.filter
    (fun p => !(tagged_debit_idx.contains p.1))
  return { d_match := D.results
           d_un := d_un2
           conflicts := D.conflicts
           used_debit_idx := D.usedDebitIdx
           c_match := C.results
           c_un_claims := C.unmatched_rows
           over_adj := C.over_adj
           used_credit_idx := C.used_credit_idx
           used_overpay_debit := C.used_overpay_debit
           note_debits := N.note_debits
           newly_used_debit := N.newly_used_debit
           recontags := N.recontags
           credits_unmatched_final := credits_unmatched2
           debits_orphans_final := debits_orphans3
           per_claim_rev := rev2 }

-- ------------------------- loader column mapping -------------------------

/-- One entry of the wanted_names dict of a loader. -/
structure ColSpec where
  key : String
  aliases : List String
deriving Repr

/-- The alias lookup of colmap: the first non-empty alias whose lower-cased
name equals the lower-cased stripped name of some input column. -/
def colmapPick (cols : List String) (aliases : List String) : Option String :=
  aliases.findSome? (fun a =>
    if a != ("") then cols.find? (fun c => lcs (pytrim c) == lcs a) else none)

/-- The required keys that found no column; colmap raises ValueError
exactly when this list is non-empty. -/
def colmapMissing (cols : List String) (wanted : List ColSpec)
    (required : List String) : List String :=
  (wanted.filter (fun w =>
    required.contains w.key && (colmapPick cols w.aliases).isNone)).map
    (fun w => w.key)

/-- The claim_id aliases of load_r2d. -/
def claimIdAliases : List String :=
  [("Dynamo Claim ID"), ("ClaimID"), ("Claim Id"), ("Dynamo Id"), ("Dynamo")]

/-- The claimant aliases of load_r2d. -/
def claimantAliases : List String :=
  [("Recipient Name"), ("Claimant Name"), ("Recipient")]

/-- The posting_date aliases of load_chase. -/
def postingDateAliases : List String :=
  [("Posting Date"), ("Details Posting Date"), ("Post Date")]

/-- The description aliases of load_chase. -/
def descriptionAliases : List String := [("Description"), ("Details"), ("Memo")]

/-- The amount aliases of load_chase. -/
def amountAliases : List String := [("Amount"), ("Amt")]

/-- The wanted_names dict of load_r2d. -/
def r2dWanted : List ColSpec :=
  [ ⟨("ach_id"), [("ACH ID"), ("ACHID"), ("ACH_Id"), ("ach id")]⟩
  , ⟨("amount_transferred"),
     [("Amount Transferred"), ("Transferred Amount"), ("amount transferred")]⟩
  , ⟨("amount_to_funder"),
     [("Amount To Funder"), ("Amt To Funder"), ("amount to funder")]⟩
  , ⟨("claim_id"), claimIdAliases⟩
  , ⟨("claimant"), claimantAliases⟩
  , ⟨("deal_type"), [("Deal Type"), ("DealType"), ("Type")]⟩
  , ⟨("contract_date"),
     [("Contract Date"), ("Date Funded"), ("Transfer Initiated Date")]⟩
  , ⟨("transfer_initiated"),
     [("Transfer Initiated Date"), ("Transfer Initiated (ET)")]⟩
  , ⟨("likely_arrived"), [("Likely Arrived Date"), ("Date Closed")]⟩
  , ⟨("repayment_amount"),
     [("Repayment Amount"), ("Repayment Amount (KEEP)"), ("Repayment")]⟩
  , ⟨("notes"), [("Repayment Notes"), ("Reconciliation Notes"), ("Notes")]⟩
  , ⟨("legacy_id"),
     [("Legacy ID"), ("LegacyID"), ("Legacy Id"), ("Legacy"),
      ("Correlation ID"), ("CorrelationID")]⟩ ]

/-- The required keys of load_r2d. -/
def r2dRequired : List String := [("claim_id"), ("claimant")]

/-- The wanted_names dict of load_chase. -/
def chaseWanted : List ColSpec :=
  [ ⟨("posting_date"), postingDateAliases⟩
  , ⟨("description"), descriptionAliases⟩
  , ⟨("amount"), amountAliases⟩
  , ⟨("type"), [("Type")]⟩
  , ⟨("recon_tag"),
     [("ReconTag"), ("Recon Tag"), ("Recon_Tag"), ("RECONTAG"), ("recontag")]⟩ ]

/-- The required keys of load_chase. -/
def chaseRequired : List String :=
  [("posting_date"), ("description"), ("amount")]

/-- load_r2d raises on missing required columns. -/
def load_r2d_raises (cols : List String) : Bool :=
  !(colmapMissing cols r2dWanted r2dRequired).isEmpty

/-- load_chase raises on missing required columns. -/
def load_chase_raises (cols : List String) : Bool :=
  !(colmapMissing cols chaseWanted chaseRequired).isEmpty

-- ------------------------- example inputs -------------------------

/-- A reference day used by the concrete examples. -/
def exDay : Ymd := ⟨2025, 1, 10⟩

/-- Ledger row of claim CA: repayment 100.00, a note recording a 50.00
overpayment, no transfer amount. -/
def exCa : R2DRow :=
  { ach_id := ("A1"), amount_transferred := none, amount_to_funder := none
    claim_id := ("CA"), claimant := ("Ann"), deal_type := ("")
    contract_date := none, transfer_initiated := none
    likely_arrived := some exDay, repayment_amount := some 10000
    notes := ("overpaid by $50.00"), legacy_id := none }

/-- Ledger row of claim CB: no repayment, a note expecting a 50.00 funder
debit. -/
def exCb : R2DRow :=
  { ach_id := ("A2"), amount_transferred := none, amount_to_funder := none
    claim_id := ("CB"), claimant := ("Ben"), deal_type := ("")
    contract_date := none, transfer_initiated := none
    likely_arrived := some exDay, repayment_amount := none
    notes := ("send funder $50.00"), legacy_id := none }

/-- Chase table: a far-away pad debit (index 0), the 150.00 credit
(repayment + overpay, index 1), and the 50.00 returned-overpayment debit
(index 2). -/
def exChaseC1 : List ChaseRow :=
  [ { posting_date := some ⟨2027, 10, 6⟩, description := ("pad")
      amount := some (-999999), recon_tag := none }
  , { posting_date := some exDay, description := ("wire")
      amount := some 15000, recon_tag := none }
  , { posting_date := some exDay, description := ("ret")
      amount := some (-5000), recon_tag := none } ]

/-- The C7 witness table: exChaseC1 plus a 77.00 credit manually tagged
for claim CA (index 3). -/
def exChaseC7 : List ChaseRow :=
  exChaseC1 ++
    [ { posting_date := some exDay, description := ("manual")
        amount := some 7700, recon_tag := some (" CA ") } ]

/-- Two ledger rows sharing ach_id A7 and claim CL1 with two different
claimants: a conflict group containing a true (ach_id, claim_id)
duplicate. -/
def exR3a : R2DRow :=
  { ach_id := ("A7"), amount_transferred := some 100000, amount_to_funder := none
    claim_id := ("CL1"), claimant := ("Alice Smith"), deal_type := ("")
    contract_date := none, transfer_initiated := none
    likely_arrived := some exDay, repayment_amount := none
    notes := (""), legacy_id := none }

def exR3b : R2DRow :=
  { exR3a with claimant := ("Bob Jones"), amount_transferred := some 50000 }

/-- Two ledger entries of one claim C with different ach ids and amounts;
only the first has a matching bank debit. -/
def exE0 : R2DRow :=
  { ach_id := ("B1"), amount_transferred := some 100000, amount_to_funder := none
    claim_id := ("C"), claimant := ("Ann"), deal_type := ("")
    contract_date := none, transfer_initiated := none
    likely_arrived := some exDay, repayment_amount := none
    notes := (""), legacy_id := none }

def exE1 : R2DRow :=
  { exE0 with ach_id := ("B2"), amount_transferred := some 50000 }

def exD0 : ChaseRow :=
  { posting_date := some exDay, description := ("pay")
    amount := some (-100000), recon_tag := none }

/-- A claim with repayment 100.00 and a single-token claimant. -/
def exK5 : R2DRow :=
  { ach_id := (""), amount_transferred := none, amount_to_funder := none
    claim_id := ("K"), claimant := ("Solo"), deal_type := ("")
    contract_date := none, transfer_initiated := none
    likely_arrived := some exDay, repayment_amount := some 10000
    notes := (""), legacy_id := none }

/-- The qualifying 100.00 credit sitting at Chase row index 0. -/
def exCreditK : ChaseRow :=
  { posting_date := some exDay, description := ("x")
    amount := some 10000, recon_tag := none }

-- ------------------------- helper lemmas -------------------------

theorem mem_insertStable {α : Type} (lt : α → α → Bool) (x a : α) (l : List α) :
    a ∈ insertStable lt x l ↔ a = x ∨ a ∈ l := by
  induction l with
  | nil => simp [insertStable]
  | cons y ys ih =>
    by_cases h : lt x y = true
    · simp [insertStable, h, List.mem_cons]
    · simp only [insertStable, h, if_neg, Bool.not_eq_true] at *
      simp [List.mem_cons, ih]
      tauto

theorem mem_sortByKey_aux {α : Type} (lt : α → α → Bool) (l acc : List α) (a : α) :
    a ∈ l.foldl (fun acc x => insertStable lt x acc) acc ↔ a ∈ acc ∨ a ∈ l := by
  induction l generalizing acc with
  | nil => simp
  | cons y ys ih =>
    simp only [List.foldl_cons, ih, mem_insertStable, List.mem_cons]
    tauto

theorem mem_sortByKey {α : Type} (lt : α → α → Bool) (l : List α) (a : α) :
    a ∈ sortByKey lt l ↔ a ∈ l := by
  simp [sortByKey, mem_sortByKey_aux]

theorem idxFrom_fst_ge {α : Type} (n : Nat) (l : List α) (i : Nat) (x : α) :
    (i, x) ∈ idxFrom n l → n ≤ i := by
  induction l generalizing n with
  | nil => intro h; simp [idxFrom] at h
  | cons y ys ih =>
    intro h
    simp only [idxFrom, List.mem_cons] at h
    rcases h with h | h
    · cases h; omega
    · have := ih (n + 1) h; omega

theorem idxFrom_functional {α : Type} (n : Nat) (l : List α) (i : Nat) (x y : α) :
    (i, x) ∈ idxFrom n l → (i, y) ∈ idxFrom n l → x = y := by
  induction l generalizing n with
  | nil => intro h; simp [idxFrom] at h
  | cons z zs ih =>
    intro hx hy
    simp only [idxFrom, List.mem_cons] at hx hy
    rcases hx with hx | hx <;> rcases hy with hy | hy
    · cases hx; cases hy; rfl
    · cases hx; exact absurd (idxFrom_fst_ge _ _ _ _ hy) (by omega)
    · cases hy; exact absurd (idxFrom_fst_ge _ _ _ _ hx) (by omega)
    · exact ih (n + 1) hx hy

theorem idxd_functional {α : Type} (l : List α) (i : Nat) (x y : α) :
    (i, x) ∈ idxd l → (i, y) ∈ idxd l → x = y :=
  idxFrom_functional 0 l i x y

theorem mem_uniqueKeep {α : Type} [DecidableEq α] (l : List α) (a : α) :
    a ∈ uniqueKeep l ↔ a ∈ l := by
  induction l with
  | nil => simp [uniqueKeep]
  | cons x xs ih =>
    simp only [uniqueKeep, List.mem_cons]
    constructor
    · intro h
      rcases h with h | h
      · exact Or.inl h
      · exact Or.inr (ih.mp (List.mem_of_mem_filter h))
    · intro h
      rcases h with h | h
      · exact Or.inl h
      · by_cases hx : a = x
        · exact Or.inl hx
        · refine Or.inr (List.mem_filter.mpr ⟨ih.mpr h, ?_⟩)
          simp [hx]

/-- A row of a filtered indexed table is a row of the table. -/
theorem mem_of_mem_filter_pair {α : Type} (p : Nat × α) (f : Nat × α → Bool)
    (l : List (Nat × α)) : p ∈ l.filter f → p ∈ l :=
  List.mem_of_mem_filter

/-- A credit row and a debit row cannot share one index of one table. -/
theorem credit_debit_disjoint (chase : List ChaseRow) (i : Nat) (a b : ChaseRow)
    (ha : (i, a) ∈ (idxd chase).filter (fun jc => jc.2.is_credit))
    (hb : (i, b) ∈ (idxd chase).filter (fun jc => jc.2.is_debit)) : False := by
  have ha2 := List.mem_filter.mp ha
  have hb2 := List.mem_filter.mp hb
  have hab : a = b := idxd_functional chase i a b ha2.1 hb2.1
  have hc : a.is_credit = true := ha2.2
  have hd : b.is_debit = true := hb2.2
  rw [hab] at hc
  simp only [ChaseRow.is_credit, ChaseRow.is_debit, decide_eq_true_eq] at hc hd
  exact absurd (hc.trans hd) (lt_irrefl 0)

-- ------------------------- closed claim theorems -------------------------

/-- C5 (code bug): for the claim K with repayment 100.00 and the bank
table whose only row is an unconsumed qualifying credit at index 0,
strategy C does find that credit, yet the matcher records no match, leaves
the credit unconsumed and reports the claim unmatched: the truthiness
guards "if chosen_idx:" treat the pandas label 0 as no match. -/
theorem c5_index_zero_credit_unmatched :
    (match_credits_one_row_per_claim [exK5] (idxd [exCreditK])).results = []
    ∧ (match_credits_one_row_per_claim [exK5] (idxd [exCreditK])).used_credit_idx = []
    ∧ ((match_credits_one_row_per_claim [exK5]
        (idxd [exCreditK])).unmatched_rows.map (fun r => r.claim_id)) = [("K")]
    ∧ _try_match_exact_repayment ((idxd [exCreditK]).filter
        (fun jc => jc.2.is_credit)) 10000 [] (some exDay) = some (0, exCreditK) := by
  exact ⟨by rfl, by rfl, by rfl, by rfl⟩

/-- C8 (code bug): on the spec example text, extract_note_events yields
exactly one credit_expected event, but of 46.76 (the requested-remaining
amount turned credit by the has_rem_received rule), not 30.22, together
with a debit_expected of 30.22; the claim (and test_karis_fix.py) expect
one credit_expected of 30.22 with 46.76 excluded. -/
theorem c8_note_extraction_eval :
    extract_note_events 2026
      ("Received rem repayment to send funder $30.22...req rem. $46.76.")
      (some ⟨2025, 9, 3⟩)
    = Except.ok
        [ (EvKind.credit_expected, 4676, some ⟨2025, 9, 3⟩)
        , (EvKind.debit_expected, 3022, some ⟨2025, 9, 3⟩) ] := by
  rfl

/-- C9 (code bug): a note containing the token 13/45 makes
extract_note_events construct pd.Timestamp(month=13, day=45), which
raises, aborting the run instead of degrading to no events. -/
theorem c9_note_extraction_raises :
    extract_note_events 2026 ("pd 13/45") (some ⟨2025, 9, 1⟩)
    = Except.error () := by
  rfl

/-- C1 counterexample: on the CA/CB input the 50.00 debit at index 2 is
consumed as the overpay link of the CA credit match and then consumed
again by the note-based debit match of CB: the notes matcher excludes only
used_debit_idx, not used_overpay_debit. -/
theorem c1_overpay_link_reused_cex :
    (runModel 2026 [exCa, exCb] exChaseC1 none).map
      (fun res => (res.used_overpay_debit,
        res.note_debits.map (fun n => (n.claim_id, n.matched_debit_idx))))
    = Except.ok ([2], [(("CB"), 2)]) := by
  rfl

/-- C3 counterexample: the A7 group is reported as an ACHConflict listing
both rows (two distinct base claimants), yet deduplication still drops the
second row, because drop_duplicates on (ach_id, claim_id) runs regardless
of conflicts - the claim says zero rows of a conflict group are dropped. -/
theorem c3_conflict_row_dropped_cex :
    validate_ach_id_conflicts [exR3a, exR3b]
      = [⟨("A7"), 2, [exR3a.achDetail, exR3b.achDetail]⟩]
    ∧ (dedupe_by_ach_id [exR3a, exR3b]).1 = [exR3a]
    ∧ (dedupe_by_ach_id [exR3a, exR3b]).2.1 = 1 := by
  exact ⟨by rfl, by rfl, by rfl⟩

/-- C6 counterexample: entry 1 (claim C, 500.00) survives deduplication
and is not assigned in pass 1 (the only debit goes to entry 0), yet pass 2
skips it because its claim_id already appears among the results, so it is
neither assigned a debit nor listed in the unmatched-ledger output. -/
theorem c6_skipped_entry_cex :
    (match_debits_relaxed [exE0, exE1] (idxd [exD0])).dedup = [exE0, exE1]
    ∧ ((match_debits_relaxed [exE0, exE1] (idxd [exD0])).results.map
        (fun r => r.r2d_index)) = [0]
    ∧ (match_debits_relaxed [exE0, exE1] (idxd [exD0])).unmatched = [] := by
  exact ⟨by rfl, by rfl, by rfl⟩

/-- C10 counterexample: an input sheet providing only the claim-id and
claimant columns loads without raising, although every window-date column
and every amount column is absent - the loader only requires claim_id and
claimant on the ledger side. -/
theorem c10_loader_no_raise_cex :
    load_r2d_raises [("Dynamo Claim ID"), ("Recipient Name")] = false
    ∧ colmapPick [("Dynamo Claim ID"), ("Recipient Name")]
        [("Likely Arrived Date"), ("Date Closed")] = none
    ∧ colmapPick [("Dynamo Claim ID"), ("Recipient Name")]
        [("Transfer Initiated Date"), ("Transfer Initiated (ET)")] = none
    ∧ colmapPick [("Dynamo Claim ID"), ("Recipient Name")]
        [("Amount Transferred"), ("Transferred Amount"), ("amount transferred")] = none
    ∧ colmapPick [("Dynamo Claim ID"), ("Recipient Name")]
        [("Repayment Amount"), ("Repayment Amount (KEEP)"), ("Repayment")] = none
    ∧ colmapPick [("Dynamo Claim ID"), ("Recipient Name")]
        [("Amount To Funder"), ("Amt To Funder"), ("amount to funder")] = none := by
  exact ⟨by rfl, by rfl, by rfl, by rfl, by rfl, by rfl⟩

theorem tryA_none (cand : List (Nat × ChaseRow)) (rs ov : Money) (used : List Nat)
    (refd : Option Ymd) (h : ov ≤ AMOUNT_TOL) :
    _try_match_repayment_plus_overpay cand rs ov used refd = none := by
  unfold _try_match_repayment_plus_overpay
  rw [if_pos h]

theorem tryB_none (credits : List (Nat × ChaseRow)) (cl : String) (rs : Money)
    (used : List Nat) (h : (nameParts cl).length < 2) :
    _try_match_fedwire_by_name credits cl rs used = none := by
  unfold _try_match_fedwire_by_name
  rw [if_pos h]

theorem sort_two_rolls (x y : RollRow) (hgroup : x.repayment_sum = y.repayment_sum)
    (hdiff : transferredRepaymentDiff x < transferredRepaymentDiff y) :
    _setup_priority_sorting [x, y] = [x, y]
    ∧ _setup_priority_sorting [y, x] = [x, y] := by
  have hyx : rollLt y x = false := by
    simp only [rollLt, hgroup]
    simp [lt_irrefl, not_lt.mpr (le_of_lt hdiff)]
  have hxy : rollLt x y = true := by
    simp only [rollLt]
    simp [hgroup, hdiff]
  constructor
  · simp [_setup_priority_sorting, sortByKey, insertStable, hyx]
  · simp [_setup_priority_sorting, sortByKey, insertStable, hxy]

theorem creditCand_none (credits : List (Nat × ChaseRow)) (ox : Money) :
    creditCand credits ox none = credits := rfl

theorem creditCand_some (credits : List (Nat × ChaseRow)) (ox : Money)
    (rd : Ymd) (h : ¬ ox > AMOUNT_TOL) :
    creditCand credits ox (some rd)
      = credits.filter (fun jc => inWin jc.2.posting_date rd DATE_WINDOW_DAYS) := by
  unfold creditCand
  dsimp only
  rw [if_neg h]

theorem mem_creditCand (credits : List (Nat × ChaseRow)) (ox : Money)
    (rd : Option Ymd) (jc : Nat × ChaseRow) (h : jc ∈ creditCand credits ox rd) :
    jc ∈ credits := by
  unfold creditCand at h
  dsimp only at h
  cases rd with
  | none => exact h
  | some d => exact List.mem_of_mem_filter h

theorem creditSelect_C (cand credits : List (Nat × ChaseRow)) (rs ov : Money)
    (cl : String) (used : List Nat) (rd : Option Ymd)
    (hA : _try_match_repayment_plus_overpay cand rs ov used rd = none)
    (hB : _try_match_fedwire_by_name credits cl rs used = none) :
    creditSelect cand credits rs ov cl used rd
      = (_try_match_exact_repayment cand rs used rd,
         if pyTruthy ((_try_match_exact_repayment cand rs used rd).map
             (fun jc => jc.1)) then some (("repayment_sum")) else none) := by
  unfold creditSelect
  simp [hA, hB, pyTruthy]

/-- The credit-match record produced for roll row r and credit (k, c) via
strategy C. -/
def exactMatchRec (r : RollRow) (k : Nat) (c : ChaseRow) : CreditMatch :=
  { claim_id := r.claim_id, claimant := r.claimant
    repayment_sum := r.repayment_sum
    amount_to_funder_sum := r.amount_to_funder_sum
    ref_date := r.ref_date, match_mode := ("repayment_sum")
    chase_credit_idx := k, chase_credit_date := c.posting_date
    chase_credit_amount := c.amount.getD 0, overpay_amount := 0
    overpay_debit_idx := none, overpay_debit_date := none
    overpay_debit_desc := none, notes := r.notes_any }

theorem creditStep_singleton_match
    (credits debits : List (Nat × ChaseRow)) (st : CreditState) (r : RollRow)
    (k : Nat) (c : ChaseRow)
    (hpos : 0 < r.repayment_sum)
    (hov : r.overpaid_sum.getD 0 ≤ AMOUNT_TOL)
    (hname : (nameParts r.claimant).length < 2)
    (hcred : credits = [(k, c)])
    (hk : k ≠ 0)
    (hfree : st.used_credit.contains k = false)
    (hamt : amountClose (c.amount.getD 0) r.repayment_sum = true)
    (hwin : ∀ rd, r.ref_date = some rd →
      inWin c.posting_date rd DATE_WINDOW_DAYS = true) :
    creditStep credits debits st r =
      { st with results := st.results ++ [exactMatchRec r k c]
                used_credit := st.used_credit ++ [k] } := by
  subst hcred
  have hrs : ¬ (r.repayment_sum ≤ 0) := not_le.mpr hpos
  have hwd : ¬ (r.overpaid_sum.getD 0 > AMOUNT_TOL) := not_lt.mpr hov
  have hktru : pyTruthy (some k) = true := by simp [pyTruthy, hk]
  unfold creditStep
  rw [if_neg hrs]
  rcases href : r.ref_date with _ | rd
  · simp only [creditCand_none]
    simp only [creditSelect_C _ _ _ _ _ _ _ (tryA_none _ _ _ _ _ hov)
      (tryB_none _ _ _ _ hname)]
    unfold _try_match_exact_repayment
    simp only [sortByKey, List.foldl, insertStable, List.find?, hfree,
      Bool.not_false, hamt, Bool.and_self, Option.map_some, hktru, if_true]
    simp [exactMatchRec, hktru, hk, href]
  · simp only [href, creditCand_some _ _ _ hwd]
    have hfilter : List.filter (fun jc => inWin jc.2.posting_date rd
        DATE_WINDOW_DAYS) [(k, c)] = [(k, c)] := by
      simp [List.filter, hwin rd href]
    simp only [hfilter]
    simp only [creditSelect_C _ _ _ _ _ _ _ (tryA_none _ _ _ _ _ hov)
      (tryB_none _ _ _ _ hname)]
    unfold _try_match_exact_repayment
    simp only [sortByKey, List.foldl, insertStable, List.find?, hfree,
      Bool.not_false, hamt, Bool.and_self, Option.map_some, hktru, if_true]
    simp [exactMatchRec, hktru, hk, href]

theorem creditStep_singleton_unmatched
    (credits debits : List (Nat × ChaseRow)) (st : CreditState) (r : RollRow)
    (k : Nat) (c : ChaseRow)
    (hpos : 0 < r.repayment_sum)
    (hov : r.overpaid_sum.getD 0 ≤ AMOUNT_TOL)
    (hname : (nameParts r.claimant).length < 2)
    (hcred : credits = [(k, c)])
    (hused : st.used_credit.contains k = true) :
    creditStep credits debits st r =
      { st with unmatched_claims := st.unmatched_claims ++ [r.claim_id] } := by
  subst hcred
  have hrs : ¬ (r.repayment_sum ≤ 0) := not_le.mpr hpos
  have hwd : ¬ (r.overpaid_sum.getD 0 > AMOUNT_TOL) := not_lt.mpr hov
  have hC : ∀ (cand : List (Nat × ChaseRow)) (refd : Option Ymd),
      (∀ jc ∈ cand, jc = (k, c)) →
      _try_match_exact_repayment cand r.repayment_sum st.used_credit refd = none := by
    intro cand refd hmem
    unfold _try_match_exact_repayment
    rw [List.find?_eq_none]
    intro jc hjc
    have h1 : jc ∈ cand := (mem_sortByKey _ _ _).mp hjc
    have h2 : jc = (k, c) := hmem jc h1
    subst h2
    intro h3
    simp only [Bool.and_eq_true, Bool.not_eq_true'] at h3
    rw [hused] at h3
    exact absurd h3.1 (by simp)
  unfold creditStep
  rw [if_neg hrs]
  rcases href : r.ref_date with _ | rd
  · simp only [creditCand_none]
    simp only [creditSelect_C _ _ _ _ _ _ _ (tryA_none _ _ _ _ _ hov)
      (tryB_none _ _ _ _ hname)]
    rw [hC [(k, c)] none (by intro jc h; simpa using h)]
    simp [pyTruthy]
  · simp only [href, creditCand_some _ _ _ hwd]
    simp only [creditSelect_C _ _ _ _ _ _ _ (tryA_none _ _ _ _ _ hov)
      (tryB_none _ _ _ _ hname)]
    rw [hC _ (some rd) (by intro jc h; simpa using List.mem_of_mem_filter h)]
    simp [pyTruthy]

theorem dropDupGo_sublist (seen : List (String × String)) (l : List R2DRow) :
    List.Sublist (dropDupGo seen l) l := by
  induction l generalizing seen with
  | nil => simp [dropDupGo]
  | cons x xs ih =>
    unfold dropDupGo
    by_cases h : seen.contains (x.ach_id, x.claim_id) = true
    · rw [if_pos h]
      exact (ih seen).cons x
    · rw [if_neg h]
      exact (ih ((x.ach_id, x.claim_id) :: seen)).cons₂ x

theorem dropDupGo_filter (seen : List (String × String)) (l : List R2DRow)
    (kk : String × String) :
    (dropDupGo seen l).filter (fun r => (r.ach_id, r.claim_id) == kk)
      = if kk ∈ seen then []
        else (l.filter (fun r => (r.ach_id, r.claim_id) == kk)).take 1 := by
  induction l generalizing seen with
  | nil => by_cases h : kk ∈ seen <;> simp [dropDupGo, h]
  | cons x xs ih =>
    unfold dropDupGo
    by_cases hs : (x.ach_id, x.claim_id) ∈ seen
    · rw [if_pos (by simpa using hs), ih]
      by_cases hkk : kk ∈ seen
      · simp [hkk]
      · have hpx : ¬ (((x.ach_id, x.claim_id) == kk) = true) := by
          intro h
          exact hkk (eq_of_beq h ▸ hs)
        rw [if_neg hkk, if_neg hkk]
        rw [List.filter_cons_of_neg (by simpa using hpx)]
    · rw [if_neg (by simpa using hs)]
      by_cases hpx : ((x.ach_id, x.claim_id) == kk) = true
      · have hxk : (x.ach_id, x.claim_id) = kk := eq_of_beq hpx
        have hkk : ¬ kk ∈ seen := hxk ▸ hs
        rw [List.filter_cons_of_pos (by simpa using hpx), ih]
        rw [if_pos (show kk ∈ (x.ach_id, x.claim_id) :: seen from
          hxk ▸ List.mem_cons_self _ _)]
        rw [if_neg hkk]
        rw [List.filter_cons_of_pos (by simpa using hpx)]
        simp
      · rw [List.filter_cons_of_neg (by simpa using hpx), ih]
        have hmemiff : (kk ∈ (x.ach_id, x.claim_id) :: seen) ↔ kk ∈ seen := by
          simp only [List.mem_cons]
          constructor
          · intro h
            rcases h with h | h
            · exact absurd (by rw [h]; exact beq_self_eq_true ((x.ach_id, x.claim_id))) hpx
            · exact h
          · exact Or.inr
        by_cases hkk : kk ∈ seen
        · rw [if_pos (hmemiff.mpr hkk), if_pos hkk]
        · rw [if_neg (fun h => hkk (hmemiff.mp h)), if_neg hkk]
          rw [List.filter_cons_of_neg (by simpa using hpx)]

theorem conflict_mem (r2d : List R2DRow) (a : String)
    (hconf : achGroupIsConflict ((withAchId r2d).filter
      (fun r => r.ach_id == a)) = true) :
    (⟨a, achNumClaims ((withAchId r2d).filter (fun r => r.ach_id == a)),
      ((withAchId r2d).filter (fun r => r.ach_id == a)).map R2DRow.achDetail⟩
        : AchConflict)
      ∈ validate_ach_id_conflicts r2d := by
  unfold validate_ach_id_conflicts
  apply List.mem_filterMap.mpr
  refine ⟨a, ?_, ?_⟩
  · have hlen : ((withAchId r2d).filter (fun r => r.ach_id == a)).length > 1 := by
      have := hconf
      unfold achGroupIsConflict at this
      simp only [Bool.and_eq_true, decide_eq_true_eq] at this
      exact this.1
    have hne : ((withAchId r2d).filter (fun r => r.ach_id == a)) ≠ [] := by
      intro h
      rw [h] at hlen
      simp at hlen
    rcases List.exists_mem_of_ne_nil _ hne with ⟨r, hr⟩
    have hr2 := List.mem_filter.mp hr
    have hra : r.ach_id = a := by
      have := hr2.2
      simpa using this
    apply (mem_uniqueKeep _ _).mpr
    exact List.mem_map.mpr ⟨r, hr2.1, hra⟩
  · unfold achGroupConflict
    rw [if_pos hconf]

/-- C3 (amended): deduplication always keeps exactly one row per
(ach_id, claim_id) pair among the rows with a non-empty ach_id - the first
occurrence, in order (a sublist) - and every qualifying group is reported
as an ACHConflict listing all its rows; but the deduplication is not
suspended for conflict groups, so a conflict group that also contains a
true (ach_id, claim_id) duplicate does lose its later duplicate rows. -/
theorem c3_dedupe_amended (r2d : List R2DRow) (kk : String × String) (a : String)
    (hconf : achGroupIsConflict ((withAchId r2d).filter
      (fun r => r.ach_id == a)) = true) :
    (dedupe_by_ach_id r2d).1
        = dropDupGo [] (withAchId r2d)
            ++ r2d.filter (fun r => r.ach_id.length == 0)
    ∧ List.Sublist (dropDupGo [] (withAchId r2d)) (withAchId r2d)
    ∧ (dropDupGo [] (withAchId r2d)).filter
        (fun r => (r.ach_id, r.claim_id) == kk)
        = ((withAchId r2d).filter (fun r => (r.ach_id, r.claim_id) == kk)).take 1
    ∧ (⟨a, achNumClaims ((withAchId r2d).filter (fun r => r.ach_id == a)),
        ((withAchId r2d).filter (fun r => r.ach_id == a)).map R2DRow.achDetail⟩
          : AchConflict)
        ∈ validate_ach_id_conflicts r2d := by
  refine ⟨rfl, dropDupGo_sublist [] (withAchId r2d), ?_, conflict_mem r2d a hconf⟩
  rw [dropDupGo_filter]
  simp

theorem c3_dedupe_amended_witness :
    (dedupe_by_ach_id [exR3a, exR3b]).1
        = dropDupGo [] (withAchId [exR3a, exR3b])
            ++ List.filter (fun r => r.ach_id.length == 0) [exR3a, exR3b]
    ∧ List.Sublist (dropDupGo [] (withAchId [exR3a, exR3b]))
        (withAchId [exR3a, exR3b])
    ∧ (dropDupGo [] (withAchId [exR3a, exR3b])).filter
        (fun r => (r.ach_id, r.claim_id) == (("A7"), ("CL1")))
        = (List.filter (fun r => (r.ach_id, r.claim_id) == (("A7"), ("CL1")))
            (withAchId [exR3a, exR3b])).take 1
    ∧ (⟨("A7"), achNumClaims (List.filter (fun r => r.ach_id == ("A7"))
          (withAchId [exR3a, exR3b])),
        (List.filter (fun r => r.ach_id == ("A7"))
          (withAchId [exR3a, exR3b])).map R2DRow.achDetail⟩ : AchConflict)
        ∈ validate_ach_id_conflicts [exR3a, exR3b] :=
  c3_dedupe_amended [exR3a, exR3b] (("A7"), ("CL1")) ("A7") (by decide)

theorem pass2Step_results_mono (debits : List (Nat × ChaseRow)) (st : P2State)
    (ir : Nat × R2DRow) (x : DebitMatch) (hx : x ∈ st.results) :
    x ∈ (pass2Step debits st ir).results := by
  unfold pass2Step
  dsimp only
  split
  · exact hx
  · split
    · split
      · simp [hx]
      · split <;> simp [hx]
    · simp [hx]

theorem pass2Step_unmatched_mono (debits : List (Nat × ChaseRow)) (st : P2State)
    (ir : Nat × R2DRow) (i : Nat) (hi : i ∈ st.unmatchedIdx) :
    i ∈ (pass2Step debits st ir).unmatchedIdx := by
  unfold pass2Step
  dsimp only
  split
  · exact hi
  · split
    · split
      · simp [hi]
      · split <;> simp [hi]
    · simp [hi]

theorem pass2_foldl_results_mono (debits : List (Nat × ChaseRow))
    (l : List (Nat × R2DRow)) (st : P2State) (x : DebitMatch)
    (hx : x ∈ st.results) : x ∈ (l.foldl (pass2Step debits) st).results := by
  induction l generalizing st with
  | nil => exact hx
  | cons q qs ih => exact ih _ (pass2Step_results_mono debits st q x hx)

theorem pass2_foldl_unmatched_mono (debits : List (Nat × ChaseRow))
    (l : List (Nat × R2DRow)) (st : P2State) (i : Nat)
    (hi : i ∈ st.unmatchedIdx) :
    i ∈ (l.foldl (pass2Step debits) st).unmatchedIdx := by
  induction l generalizing st with
  | nil => exact hi
  | cons q qs ih => exact ih _ (pass2Step_unmatched_mono debits st q i hi)

theorem pass2Step_covers (debits : List (Nat × ChaseRow)) (st : P2State)
    (ir : Nat × R2DRow) :
    (∃ r ∈ (pass2Step debits st ir).results, r.claim_id = ir.2.claim_id)
    ∨ ir.1 ∈ (pass2Step debits st ir).unmatchedIdx := by
  unfold pass2Step
  dsimp only
  split
  · rename_i hany
    rcases List.any_eq_true.mp hany with ⟨r, hr, hbeq⟩
    exact Or.inl ⟨r, hr, eq_of_beq hbeq⟩
  · split
    · split
      · right; simp
      · split
        · left
          refine ⟨_, List.mem_append_right _ (List.mem_singleton_self _), rfl⟩
        · right; simp
    · right; simp

theorem pass2_foldl_covers (debits : List (Nat × ChaseRow))
    (l : List (Nat × R2DRow)) (st : P2State) (p : Nat × R2DRow) (hp : p ∈ l) :
    (∃ r ∈ (l.foldl (pass2Step debits) st).results, r.claim_id = p.2.claim_id)
    ∨ p.1 ∈ (l.foldl (pass2Step debits) st).unmatchedIdx := by
  induction l generalizing st with
  | nil => cases hp
  | cons q qs ih =>
    rcases List.mem_cons.mp hp with h | h
    · subst h
      rcases pass2Step_covers debits st p with ⟨r, hr, he⟩ | hu
      · exact Or.inl ⟨r, pass2_foldl_results_mono debits qs _ r hr, he⟩
      · exact Or.inr (pass2_foldl_unmatched_mono debits qs _ p.1 hu)
    · exact ih _ h

/-- The soundness payload of an extended-window match record. -/
def extSound (debits : List (Nat × ChaseRow)) (r : DebitMatch) : Prop :=
  ∃ jc ∈ debits, jc.1 = r.chase_index
    ∧ (match jc.2.amount with
       | some a => amountClose (intAbs a) (intAbs r.amount_transferred) = true
       | none => False)
    ∧ inWin jc.2.posting_date r.r2d_date DATE_WINDOW_DAYS_WIDE = true

theorem pass2Step_ext_sound (debits : List (Nat × ChaseRow)) (st : P2State)
    (ir : Nat × R2DRow)
    (hst : ∀ r ∈ st.results, r.match_type = ("amount+extended_window") →
      extSound debits r) :
    ∀ r ∈ (pass2Step debits st ir).results,
      r.match_type = ("amount+extended_window") → extSound debits r := by
  intro r hr hty
  unfold pass2Step at hr
  dsimp only at hr
  split at hr
  · exact hst r hr hty
  · split at hr
    · split at hr
      · exact hst r hr hty
      · split at hr
        · rename_i amt win heqa heqw hne hx jc hfind
          rcases List.mem_append.mp hr with h | h
          · exact hst r h hty
          · have hjc : jc ∈ sortByKey (p2CandLt win)
                (debitCandidates debits amt win DATE_WINDOW_DAYS_WIDE) :=
              List.mem_of_find?_eq_some hfind
            have hjc2 : jc ∈ debitCandidates debits amt win DATE_WINDOW_DAYS_WIDE :=
              (mem_sortByKey _ _ _).mp hjc
            have hjc3 := List.mem_filter.mp hjc2
            have hcond := hjc3.2
            simp only [Bool.and_eq_true] at hcond
            have hre : r =
                { r2d_index := ir.1, chase_index := jc.1,
                  ach_id := ir.2.ach_id, claim_id := ir.2.claim_id,
                  amount_transferred := amt, r2d_date := win,
                  chase_date := jc.2.posting_date,
                  chase_amount := jc.2.amount.getD 0,
                  description := jc.2.description,
                  match_type := ("amount+extended_window"),
                  confidence := debitConfidence jc.2.has_hint (candDelta win jc.2) } := by
              simpa using h
            refine ⟨jc, hjc3.1, ?_, ?_, ?_⟩
            · rw [hre]
            · rw [hre]
              rcases ha : jc.2.amount with _ | a
              · rw [ha] at hcond
                simp at hcond
              · rw [ha] at hcond
                simpa using hcond.1
            · rw [hre]
              exact hcond.2
        · exact hst r hr hty
    · exact hst r hr hty

theorem pass2_foldl_ext_sound (debits : List (Nat × ChaseRow))
    (l : List (Nat × R2DRow)) (st : P2State)
    (hst : ∀ r ∈ st.results, r.match_type = ("amount+extended_window") →
      extSound debits r) :
    ∀ r ∈ (l.foldl (pass2Step debits) st).results,
      r.match_type = ("amount+extended_window") → extSound debits r := by
  induction l generalizing st with
  | nil => exact hst
  | cons q qs ih => exact ih _ (pass2Step_ext_sound debits st q hst)

theorem assignPass1_types (l : List DebitPot) (uc ud : List Nat)
    (res : List DebitMatch)
    (hres : ∀ r ∈ res, r.match_type = ("amount+window(+hints)")) :
    ∀ r ∈ (assignPass1 l uc ud res).1,
      r.match_type = ("amount+window(+hints)") := by
  induction l generalizing uc ud res with
  | nil => exact hres
  | cons p rest ih =>
    unfold assignPass1
    split
    · exact ih _ _ _ hres
    · apply ih
      intro r hr
      rcases List.mem_append.mp hr with h | h
      · exact hres r h
      · have : r = p.toMatch := by simpa using h
        rw [this]
        rfl

/-- C6 (amended): pass 2 skips an entry as soon as its claim_id appears
among the match records accumulated so far (pass 1 or an earlier pass-2
match of another entry of the same claim), so what holds for every
deduplicated entry is: either some match record carries its claim_id, or
the entry is listed in the unmatched-ledger output.  Every extended-window
match is sound: its bank debit lies in the widened 30-day window of the
entry's window date with the amount within tolerance. -/
theorem c6_pass2_amended (r2d : List R2DRow) (ichase : List (Nat × ChaseRow))
    (p : Nat × R2DRow)
    (hp : p ∈ idxd (match_debits_relaxed r2d ichase).dedup) :
    ((∃ r ∈ (match_debits_relaxed r2d ichase).results,
        r.claim_id = p.2.claim_id)
      ∨ p ∈ (match_debits_relaxed r2d ichase).unmatched)
    ∧ (∀ r ∈ (match_debits_relaxed r2d ichase).results,
        r.match_type = ("amount+extended_window") →
          extSound (ichase.filter (fun q => q.2.is_debit)) r) := by
  constructor
  · have hcov := pass2_foldl_covers (ichase.filter (fun q => q.2.is_debit))
      (idxd (dedupe_by_ach_id r2d).1)
      ⟨(assignPass1 (sortByKey potLt (collectPass1 (idxd (dedupe_by_ach_id r2d).1)
          (ichase.filter (fun q => q.2.is_debit)))) [] [] []).1,
        (assignPass1 (sortByKey potLt (collectPass1 (idxd (dedupe_by_ach_id r2d).1)
          (ichase.filter (fun q => q.2.is_debit)))) [] [] []).2.2, []⟩
      p hp
    rcases hcov with ⟨r, hr, he⟩ | hu
    · exact Or.inl ⟨r, hr, he⟩
    · refine Or.inr (List.mem_filter.mpr ⟨hp, ?_⟩)
      simpa using hu
  · apply pass2_foldl_ext_sound
    intro r hr hty
    have := assignPass1_types _ [] [] [] (by intro r h; cases h) r hr
    rw [this] at hty
    exact absurd hty (by decide)

theorem c6_pass2_amended_witness :
    ((∃ r ∈ (match_debits_relaxed [exE0, exE1] (idxd [exD0])).results,
        r.claim_id = exE0.claim_id)
      ∨ (0, exE0) ∈ (match_debits_relaxed [exE0, exE1] (idxd [exD0])).unmatched)
    ∧ (∀ r ∈ (match_debits_relaxed [exE0, exE1] (idxd [exD0])).results,
        r.match_type = ("amount+extended_window") →
          extSound ((idxd [exD0]).filter (fun q => q.2.is_debit)) r) :=
  c6_pass2_amended [exE0, exE1] (idxd [exD0]) (0, exE0) (by decide)

/-- C4: when two claims with equal (rounded) repayment sums compete for
one bank credit (a single qualifying unconsumed credit, reachable for both
through strategy C), the priority sort puts the claim whose transferred
sum is closest to the repayment first, and the matcher assigns the credit
to that claim; the other claim ends unmatched. -/
theorem c4_priority_assignment
    (x y : RollRow) (roll : List RollRow) (ichase : List (Nat × ChaseRow))
    (k : Nat) (c : ChaseRow)
    (hroll : roll = [x, y] ∨ roll = [y, x])
    (hgroup : x.repayment_sum = y.repayment_sum)
    (hdiff : transferredRepaymentDiff x < transferredRepaymentDiff y)
    (hpos : 0 < x.repayment_sum)
    (hovx : x.overpaid_sum.getD 0 ≤ AMOUNT_TOL)
    (hovy : y.overpaid_sum.getD 0 ≤ AMOUNT_TOL)
    (hnx : (nameParts x.claimant).length < 2)
    (hny : (nameParts y.claimant).length < 2)
    (hcred : ichase.filter (fun jc => jc.2.is_credit) = [(k, c)])
    (hk : k ≠ 0)
    (hamt : amountClose (c.amount.getD 0) x.repayment_sum = true)
    (hwinx : ∀ rd, x.ref_date = some rd →
      inWin c.posting_date rd DATE_WINDOW_DAYS = true)
    (hwiny : ∀ rd, y.ref_date = some rd →
      inWin c.posting_date rd DATE_WINDOW_DAYS = true) :
    _setup_priority_sorting roll = [x, y]
    ∧ (match_credits_from_roll roll ichase).results.map
        (fun m => (m.claim_id, m.chase_credit_idx)) = [(x.claim_id, k)]
    ∧ (match_credits_from_roll roll ichase).unmatched_claims = [y.claim_id] := by
  have hsort : _setup_priority_sorting roll = [x, y] := by
    rcases hroll with h | h <;> subst h
    · exact (sort_two_rolls x y hgroup hdiff).1
    · exact (sort_two_rolls x y hgroup hdiff).2
  refine ⟨hsort, ?_⟩
  unfold match_credits_from_roll
  rw [hcred, hsort]
  simp only [List.foldl]
  rw [creditStep_singleton_match _ _ _ _ k c hpos hovx hnx rfl hk (by rfl) hamt hwinx]
  rw [creditStep_singleton_unmatched _ _ _ _ k c (hgroup ▸ hpos) hovy hny rfl (by simp)]
  constructor <;> simp [exactMatchRec]

/-- The roll row of the primary claim PA of the C4 witness:
repayment 2312.93, transferred 2250.79 (diff 62.14). -/
def c4RollA : RollRow :=
  { claim_id := ("PA"), repayment_sum := 231293, amount_to_funder_sum := 0
    amount_transferred_sum := 225079, ref_date := some exDay
    overpaid_sum := none, notes_any := (""), claimant := ("Main")
    deal_type := (""), contract_date := none }

/-- The secondary claim PB: same repayment, transferred 179.19
(diff 2133.74). -/
def c4RollB : RollRow :=
  { c4RollA with claim_id := ("PB"), amount_transferred_sum := 17919
                 claimant := ("Part") }

/-- The contested credit of the C4 witness, at Chase index 1. -/
def exCreditC4 : ChaseRow :=
  { posting_date := some exDay, description := ("x")
    amount := some 231293, recon_tag := none }

def exChaseC4 : List ChaseRow :=
  [ { posting_date := some exDay, description := ("p")
      amount := some (-777), recon_tag := none }
  , exCreditC4 ]

theorem c4_priority_assignment_witness :
    _setup_priority_sorting [c4RollB, c4RollA] = [c4RollA, c4RollB]
    ∧ (match_credits_from_roll [c4RollB, c4RollA] (idxd exChaseC4)).results.map
        (fun m => (m.claim_id, m.chase_credit_idx)) = [(("PA"), 1)]
    ∧ (match_credits_from_roll [c4RollB, c4RollA]
        (idxd exChaseC4)).unmatched_claims = [("PB")] :=
  c4_priority_assignment c4RollA c4RollB [c4RollB, c4RollA] (idxd exChaseC4)
    1 exCreditC4 (Or.inr rfl) (by decide) (by decide) (by decide) (by decide)
    (by decide) (by decide) (by decide) (by rfl) (by decide) (by decide)
    (by intro rd h; simp [c4RollA] at h; subst h; decide)
    (by intro rd h; simp [c4RollB, c4RollA] at h; subst h; decide)

/-- C10 (amended): loading fails fast exactly when a column of the
loader's own required list is absent: the ledger sheet requires claim_id
and claimant, the bank sheet requires posting_date, description and
amount; window-date and ledger amount columns are optional and default
when absent (so their absence alone never raises). -/
theorem c10_required_columns_amended (cols : List String) :
    load_r2d_raises cols
      = !((colmapPick cols claimIdAliases).isSome
          && (colmapPick cols claimantAliases).isSome)
    ∧ load_chase_raises cols
      = !((colmapPick cols postingDateAliases).isSome
          && (colmapPick cols descriptionAliases).isSome
          && (colmapPick cols amountAliases).isSome) := by
  constructor
  · unfold load_r2d_raises colmapMissing
    cases h1 : colmapPick cols claimIdAliases <;>
      cases h2 : colmapPick cols claimantAliases <;>
        simp [r2dWanted, r2dRequired, h1, h2]
  · unfold load_chase_raises colmapMissing
    cases h1 : colmapPick cols postingDateAliases <;>
      cases h2 : colmapPick cols descriptionAliases <;>
        cases h3 : colmapPick cols amountAliases <;>
          simp [chaseWanted, chaseRequired, h1, h2, h3]

-- ------------------------- consumption invariants -------------------------

theorem headq_mem {α : Type} (l : List α) (a : α) (h : l.head? = some a) :
    a ∈ l := by
  cases l with
  | nil => cases h
  | cons x xs =>
    cases h
    exact List.mem_cons_self _ _

theorem foldl_pres {α β : Type} (P : β → Prop) (f : β → α → β) (l : List α)
    (b : β) (hf : ∀ b a, P b → P (f b a)) (hb : P b) : P (l.foldl f b) := by
  induction l generalizing b with
  | nil => exact hb
  | cons x xs ih => exact ih _ (hf _ _ hb)

theorem nodup_snoc {α : Type} (l : List α) (a : α) (h : l.Nodup) (ha : ¬ a ∈ l) :
    (l ++ [a]).Nodup := by
  induction l with
  | nil => simp
  | cons x xs ih =>
    rw [List.cons_append, List.nodup_cons]
    rw [List.nodup_cons] at h
    have hax : a ≠ x := fun e => ha (e ▸ List.mem_cons_self x xs)
    refine ⟨?_, ih h.2 (fun hm => ha (List.mem_cons_of_mem _ hm))⟩
    intro hx
    rcases List.mem_append.mp hx with h1 | h1
    · exact h.1 h1
    · have hxa : x = a := by simpa using h1
      exact hax hxa.symm

theorem not_mem_of_contains_false (l : List Nat) (k : Nat)
    (h : l.contains k = false) : ¬ k ∈ l := by
  intro hm
  rw [List.contains_eq_any_beq] at h
  have : l.any (k == ·) = true := List.any_eq_true.mpr ⟨k, hm, by simp⟩
  rw [this] at h
  cases h

theorem dropWhileL_eq (p : Char → Bool) (l : List Char) :
    dropWhileL p l = l.dropWhile p := by
  induction l with
  | nil => rfl
  | cons c cs ih =>
    rw [dropWhileL, List.dropWhile_cons]
    split <;> simp_all

theorem trimList_eq (l : List Char) :
    trimList l = List.rdropWhile isWs (List.dropWhile isWs l) := by
  simp [trimList, dropWhileL_eq, List.rdropWhile]

theorem trimList_idem (l : List Char) : trimList (trimList l) = trimList l := by
  rw [trimList_eq, trimList_eq]
  have hinner : List.dropWhile isWs (List.rdropWhile isWs (List.dropWhile isWs l))
      = List.rdropWhile isWs (List.dropWhile isWs l) := by
    rcases hrd : List.rdropWhile isWs (List.dropWhile isWs l) with _ | ⟨c, t⟩
    · rfl
    · have hpre := List.rdropWhile_prefix (p := isWs) (l := List.dropWhile isWs l)
      rw [hrd] at hpre
      obtain ⟨t2, ht2⟩ := hpre
      have hne : List.dropWhile isWs l ≠ [] := by
        rw [← ht2]; simp
      have hq : (List.dropWhile isWs l).head? = some c := by
        rw [← ht2]; simp
      have h1 := List.head?_eq_head (l := List.dropWhile isWs l) hne
      rw [hq] at h1
      have h2 : c = (List.dropWhile isWs l).head hne := by
        injection h1
      have h0 := List.head_dropWhile_not isWs l hne
      rw [← h2] at h0
      rw [List.dropWhile_cons]
      simp [h0]
  rw [hinner, List.rdropWhile_idempotent]

theorem pytrim_idem (s : String) : pytrim (pytrim s) = pytrim s := by
  show String.mk (trimList (trimList s.data)) = String.mk (trimList s.data)
  rw [trimList_idem]

theorem tryA_spec (cand : List (Nat × ChaseRow)) (rs ov : Money)
    (used : List Nat) (refd : Option Ymd) (jc : Nat × ChaseRow)
    (h : _try_match_repayment_plus_overpay cand rs ov used refd = some jc) :
    jc ∈ cand ∧ ¬ jc.1 ∈ used := by
  unfold _try_match_repayment_plus_overpay at h
  split at h
  · cases h
  · have hmem := List.mem_of_find?_eq_some h
    have hpred := List.find?_some h
    rw [Bool.and_eq_true] at hpred
    refine ⟨(mem_sortByKey _ _ _).mp hmem, ?_⟩
    have := hpred.1
    rw [Bool.not_eq_true'] at this
    exact not_mem_of_contains_false _ _ this

theorem tryB_spec (credits : List (Nat × ChaseRow)) (cl : String) (rs : Money)
    (used : List Nat) (jc : Nat × ChaseRow)
    (h : _try_match_fedwire_by_name credits cl rs used = some jc) :
    jc ∈ credits ∧ ¬ jc.1 ∈ used := by
  unfold _try_match_fedwire_by_name at h
  dsimp only at h
  split at h
  · cases h
  · have hmem := List.mem_of_find?_eq_some h
    have hpred := List.find?_some h
    rw [Bool.and_eq_true, Bool.and_eq_true] at hpred
    refine ⟨List.mem_of_mem_filter hmem, ?_⟩
    have := hpred.1.1
    rw [Bool.not_eq_true'] at this
    exact not_mem_of_contains_false _ _ this

theorem tryC_spec (cand : List (Nat × ChaseRow)) (rs : Money)
    (used : List Nat) (refd : Option Ymd) (jc : Nat × ChaseRow)
    (h : _try_match_exact_repayment cand rs used refd = some jc) :
    jc ∈ cand ∧ ¬ jc.1 ∈ used := by
  unfold _try_match_exact_repayment at h
  have hmem := List.mem_of_find?_eq_some h
  have hpred := List.find?_some h
  rw [Bool.and_eq_true] at hpred
  refine ⟨(mem_sortByKey _ _ _).mp hmem, ?_⟩
  have := hpred.1
  rw [Bool.not_eq_true'] at this
  exact not_mem_of_contains_false _ _ this

theorem findOverpay_spec (debits : List (Nat × ChaseRow)) (ov : Money)
    (cd refd : Option Ymd) (used : List Nat) (jc : Nat × ChaseRow)
    (h : _find_overpay_debit debits ov cd refd used = some jc) :
    jc ∈ debits ∧ ¬ jc.1 ∈ used := by
  unfold _find_overpay_debit at h
  dsimp only at h
  split at h
  · rename_i jc2 hfind
    cases h
    have hmem := List.mem_of_find?_eq_some hfind
    have hpred := List.find?_some hfind
    refine ⟨?_, ?_⟩
    · exact List.mem_of_mem_filter (List.mem_of_mem_filter
        ((mem_sortByKey _ _ _).mp hmem))
    · rw [Bool.not_eq_true'] at hpred
      exact not_mem_of_contains_false _ _ hpred
  · split at h
    · have hmem := List.mem_of_find?_eq_some h
      have hpred := List.find?_some h
      refine ⟨?_, ?_⟩
      · exact List.mem_of_mem_filter (List.mem_of_mem_filter
          ((mem_sortByKey _ _ _).mp hmem))
      · rw [Bool.not_eq_true'] at hpred
        exact not_mem_of_contains_false _ _ hpred
    · cases h

theorem creditSelect_spec (cand credits : List (Nat × ChaseRow)) (rs ov : Money)
    (cl : String) (used : List Nat) (rd : Option Ymd) (jc : Nat × ChaseRow)
    (h : (creditSelect cand credits rs ov cl used rd).1 = some jc) :
    (jc ∈ cand ∨ jc ∈ credits) ∧ ¬ jc.1 ∈ used := by
  unfold creditSelect at h
  dsimp only at h
  split at h
  · dsimp only at h
    have h2 := tryA_spec _ _ _ _ _ _ h
    exact ⟨Or.inl h2.1, h2.2⟩
  · split at h
    · dsimp only at h
      have h2 := tryB_spec _ _ _ _ _ h
      exact ⟨Or.inr h2.1, h2.2⟩
    · dsimp only at h
      have h2 := tryC_spec _ _ _ _ _ h
      exact ⟨Or.inl h2.1, h2.2⟩

/-- The invariant carried by the credit matcher: every recorded credit
index is consumed, consumed credit indices are labels of credit rows, no
credit index is recorded twice, and the overpay-linked debit indices are
distinct labels of debit rows. -/
structure CreditInv (credits debits : List (Nat × ChaseRow))
    (st : CreditState) : Prop where
  idx_used : ∀ m ∈ st.results, m.chase_credit_idx ∈ st.used_credit
  used_lbl : ∀ k ∈ st.used_credit, ∃ jc ∈ credits, jc.1 = k
  idx_nodup : (st.results.map (fun m => m.chase_credit_idx)).Nodup
  over_nodup : st.used_overpay_debit.Nodup
  over_lbl : ∀ k ∈ st.used_overpay_debit, ∃ jc ∈ debits, jc.1 = k

theorem creditStep_shape (credits debits : List (Nat × ChaseRow))
    (st : CreditState) (r : RollRow) :
    ((creditStep credits debits st r).results = st.results
      ∧ (creditStep credits debits st r).used_credit = st.used_credit
      ∧ (creditStep credits debits st r).used_overpay_debit
          = st.used_overpay_debit)
    ∨ (∃ jc : Nat × ChaseRow, ∃ odl : List Nat,
        jc ∈ credits ∧ ¬ jc.1 ∈ st.used_credit
        ∧ (odl = [] ∨ ∃ d : Nat × ChaseRow, odl = [d.1] ∧ d ∈ debits
            ∧ ¬ d.1 ∈ st.used_overpay_debit)
        ∧ (creditStep credits debits st r).results.map
            (fun m => m.chase_credit_idx)
          = st.results.map (fun m => m.chase_credit_idx) ++ [jc.1]
        ∧ (creditStep credits debits st r).used_credit = st.used_credit ++ [jc.1]
        ∧ (creditStep credits debits st r).used_overpay_debit
            = st.used_overpay_debit ++ odl) := by
  unfold creditStep
  split
  · exact Or.inl ⟨rfl, rfl, rfl⟩
  · dsimp only
    rcases hsel : (creditSelect
        (creditCand credits (r.overpaid_sum.getD 0) r.ref_date) credits
        r.repayment_sum (r.overpaid_sum.getD 0) r.claimant st.used_credit
        r.ref_date).1 with _ | jc
    · split
      · exact Or.inl ⟨rfl, rfl, rfl⟩
      · exact Or.inl ⟨rfl, rfl, rfl⟩
    · have hsp := creditSelect_spec _ _ _ _ _ _ _ _ hsel
      have hjc : jc ∈ credits ∧ ¬ jc.1 ∈ st.used_credit := by
        refine ⟨?_, hsp.2⟩
        rcases hsp.1 with h1 | h1
        · exact mem_creditCand _ _ _ _ h1
        · exact h1
      split
      · refine Or.inr ⟨jc, _, hjc.1, hjc.2, ?_, by simp, rfl, rfl⟩
        split
        · rename_i d heq2
          split at heq2
          · refine Or.inr ⟨d, rfl, ?_, ?_⟩
            · exact (findOverpay_spec _ _ _ _ _ _ heq2).1
            · exact (findOverpay_spec _ _ _ _ _ _ heq2).2
          · cases heq2
        · exact Or.inl rfl
      · exact Or.inl ⟨rfl, rfl, rfl⟩

theorem creditStep_inv (credits debits : List (Nat × ChaseRow)) (st : CreditState)
    (r : RollRow) (h : CreditInv credits debits st) :
    CreditInv credits debits (creditStep credits debits st r) := by
  rcases creditStep_shape credits debits st r with ⟨h1, h2, h3⟩ |
    ⟨jc, odl, hjcc, hjcu, hod, hmap, hused, hover⟩
  · exact ⟨by rw [h1, h2]; exact h.idx_used, by rw [h2]; exact h.used_lbl,
      by rw [h1]; exact h.idx_nodup, by rw [h3]; exact h.over_nodup,
      by rw [h3]; exact h.over_lbl⟩
  · refine ⟨?_, ?_, ?_, ?_, ?_⟩
    · intro m hm
      have hmm : m.chase_credit_idx ∈ (creditStep credits debits st r).results.map
          (fun m => m.chase_credit_idx) := List.mem_map_of_mem _ hm
      rw [hmap] at hmm
      rw [hused]
      rcases List.mem_append.mp hmm with h4 | h4
      · rcases List.mem_map.mp h4 with ⟨m0, hm0, he⟩
        exact List.mem_append_left _ (he ▸ h.idx_used m0 hm0)
      · exact List.mem_append_right _ h4
    · intro k hk
      rw [hused] at hk
      rcases List.mem_append.mp hk with h4 | h4
      · exact h.used_lbl k h4
      · have he : k = jc.1 := by simpa using h4
        exact ⟨jc, hjcc, he.symm⟩
    · rw [hmap]
      refine nodup_snoc _ _ h.idx_nodup ?_
      intro hmem
      rcases List.mem_map.mp hmem with ⟨m0, hm0, he⟩
      exact hjcu (he ▸ h.idx_used m0 hm0)
    · rw [hover]
      rcases hod with h4 | ⟨d, h4, hd1, hd2⟩
      · subst h4; simpa using h.over_nodup
      · subst h4; exact nodup_snoc _ _ h.over_nodup hd2
    · intro k hk
      rw [hover] at hk
      rcases List.mem_append.mp hk with h4 | h4
      · exact h.over_lbl k h4
      · rcases hod with h5 | ⟨d, h5, hd1, hd2⟩
        · subst h5; cases h4
        · subst h5
          have he : k = d.1 := by simpa using h4
          exact ⟨d, hd1, he.symm⟩

theorem creditFold_inv (credits debits : List (Nat × ChaseRow))
    (roll : List RollRow) (st : CreditState) (h : CreditInv credits debits st) :
    CreditInv credits debits (roll.foldl (creditStep credits debits) st) :=
  foldl_pres (fun s => CreditInv credits debits s) (creditStep credits debits)
    roll st (fun b a hb => creditStep_inv credits debits b a hb) h

theorem match_credits_from_roll_inv (roll : List RollRow)
    (ichase : List (Nat × ChaseRow)) :
    CreditInv (ichase.filter (fun jc => jc.2.is_credit))
      (ichase.filter (fun jc => jc.2.is_debit))
      (match_credits_from_roll roll ichase) := by
  unfold match_credits_from_roll
  dsimp only
  exact creditFold_inv _ _ _ _
    ⟨(by intro m hm; cases hm), (by intro k hk; cases hk), List.nodup_nil,
      List.nodup_nil, (by intro k hk; cases hk)⟩

theorem contains_of_mem (l : List Nat) (k : Nat) (h : k ∈ l) :
    l.contains k = true := by
  rw [List.contains_eq_any_beq]
  exact List.any_eq_true.mpr ⟨k, h, by simp⟩

/-- The invariant carried by the debit matcher: the used-debit set is
exactly the recorded chase indices in order, those are distinct, and each
is the label of a debit row. -/
structure DebitInv (debits : List (Nat × ChaseRow)) (res : List DebitMatch)
    (ud : List Nat) : Prop where
  map_eq : res.map (fun r => r.chase_index) = ud
  nodup : ud.Nodup
  lbl : ∀ r ∈ res, ∃ jc ∈ debits, jc.1 = r.chase_index

theorem collectPass1_lbl (dedup : List (Nat × R2DRow))
    (debits : List (Nat × ChaseRow)) (p : DebitPot)
    (hp : p ∈ collectPass1 dedup debits) :
    ∃ jc ∈ debits, jc.1 = p.chase_index := by
  unfold collectPass1 at hp
  rcases List.mem_flatMap.mp hp with ⟨ir, hir, hmem⟩
  rcases hat : ir.2.amount_transferred with _ | amt <;> rw [hat] at hmem
  · cases hmem
  · rcases hwd : ir.2.window_date with _ | win <;> rw [hwd] at hmem
    · cases hmem
    · rcases List.mem_map.mp hmem with ⟨jc, hjc, hpe⟩
      refine ⟨jc, List.mem_of_mem_filter hjc, ?_⟩
      rw [← hpe]

theorem assignPass1_inv (debits : List (Nat × ChaseRow)) (l : List DebitPot)
    (uc ud : List Nat) (res : List DebitMatch)
    (hinv : DebitInv debits res ud)
    (hl : ∀ p ∈ l, ∃ jc ∈ debits, jc.1 = p.chase_index) :
    DebitInv debits (assignPass1 l uc ud res).1 (assignPass1 l uc ud res).2.2 := by
  induction l generalizing uc ud res with
  | nil => exact hinv
  | cons p rest ih =>
    rw [assignPass1]
    split
    · exact ih _ _ _ hinv (fun q hq => hl q (List.mem_cons_of_mem _ hq))
    · rename_i hcond
      apply ih
      · refine ⟨?_, ?_, ?_⟩
        · simp [hinv.map_eq, DebitPot.toMatch]
        · have hud : ¬ p.chase_index ∈ ud := by
            intro hm
            exact hcond (Bool.or_eq_true _ _ |>.mpr
              (Or.inr (contains_of_mem _ _ hm)))
          exact nodup_snoc _ _ hinv.nodup hud
        · intro q hq
          rcases List.mem_append.mp hq with h4 | h4
          · exact hinv.lbl q h4
          · have hq2 : q = p.toMatch := by simpa using h4
            subst hq2
            exact hl p (List.mem_cons_self _ _)
      · exact fun q hq => hl q (List.mem_cons_of_mem _ hq)

theorem pass2Step_inv (debits : List (Nat × ChaseRow)) (st : P2State)
    (ir : Nat × R2DRow) (h : DebitInv debits st.results st.usedDebits) :
    DebitInv debits (pass2Step debits st ir).results
      (pass2Step debits st ir).usedDebits := by
  unfold pass2Step
  dsimp only
  split
  · exact h
  · split
    · split
      · exact h
      · split
        · rename_i jc hfind
          have hpred := List.find?_some hfind
          rw [Bool.not_eq_true'] at hpred
          have hmemc := (mem_sortByKey _ _ _).mp (List.mem_of_find?_eq_some hfind)
          have hjd := List.mem_of_mem_filter hmemc
          have hnm : ¬ jc.1 ∈ st.usedDebits := not_mem_of_contains_false _ _ hpred
          refine ⟨?_, ?_, ?_⟩
          · simp [h.map_eq]
          · exact nodup_snoc _ _ h.nodup hnm
          · intro q hq
            rcases List.mem_append.mp hq with h4 | h4
            · exact h.lbl q h4
            · have hq2 := by simpa using h4
              rw [hq2]
              exact ⟨jc, hjd, rfl⟩
        · exact h
    · exact h

theorem pass2Fold_inv (debits : List (Nat × ChaseRow))
    (l : List (Nat × R2DRow)) (st : P2State)
    (h : DebitInv debits st.results st.usedDebits) :
    DebitInv debits (l.foldl (pass2Step debits) st).results
      (l.foldl (pass2Step debits) st).usedDebits :=
  foldl_pres (fun s => DebitInv debits s.results s.usedDebits)
    (pass2Step debits) l st (fun b a hb => pass2Step_inv debits b a hb) h

theorem match_debits_relaxed_inv (r2d : List R2DRow)
    (ichase : List (Nat × ChaseRow)) :
    DebitInv (ichase.filter (fun jc => jc.2.is_debit))
      (match_debits_relaxed r2d ichase).results
      (match_debits_relaxed r2d ichase).usedDebitIdx := by
  unfold match_debits_relaxed
  dsimp only
  have h0 : DebitInv (ichase.filter (fun jc => jc.2.is_debit)) [] [] :=
    ⟨rfl, List.nodup_nil, (by intro q hq; cases hq)⟩
  have h1 := assignPass1_inv (ichase.filter (fun jc => jc.2.is_debit))
    (sortByKey potLt (collectPass1 (idxd (dedupe_by_ach_id r2d).1)
      (ichase.filter (fun jc => jc.2.is_debit)))) [] [] [] h0
    (fun p hp => collectPass1_lbl _ _ p ((mem_sortByKey _ _ _).mp hp))
  have h2 := pass2Fold_inv (ichase.filter (fun jc => jc.2.is_debit))
    (idxd (dedupe_by_ach_id r2d).1)
    ⟨(assignPass1 (sortByKey potLt (collectPass1 (idxd (dedupe_by_ach_id r2d).1)
        (ichase.filter (fun jc => jc.2.is_debit)))) [] [] []).1,
      (assignPass1 (sortByKey potLt (collectPass1 (idxd (dedupe_by_ach_id r2d).1)
        (ichase.filter (fun jc => jc.2.is_debit)))) [] [] []).2.2, []⟩ h1
  exact ⟨rfl, (by rw [h2.map_eq]; exact h2.nodup), h2.lbl⟩

/-- The invariant carried by the notes matcher: the newly-used debit set
is exactly the matched note-debit indices, distinct, disjoint from the
primary used-debit set, and made of labels of debit rows. -/
structure NotesInv (debits : List (Nat × ChaseRow)) (used_debit : List Nat)
    (st : NotesState) : Prop where
  map_eq : st.note_debits.map (fun n => n.matched_debit_idx)
    = st.newly_used_debit
  nodup : st.newly_used_debit.Nodup
  fresh : ∀ k ∈ st.newly_used_debit, ¬ k ∈ used_debit
  lbl : ∀ k ∈ st.newly_used_debit, ∃ jc ∈ debits, jc.1 = k

theorem noteEventStep_inv (credits debits : List (Nat × ChaseRow))
    (ucx udx : List Nat) (tagged : List (String × ChaseRow)) (r : NoteRollRow)
    (st : NotesState) (ev : NoteEvent) (h : NotesInv debits udx st) :
    NotesInv debits udx (noteEventStep credits debits ucx udx tagged r st ev) := by
  obtain ⟨kind, amount, anchor⟩ := ev
  cases kind with
  | credit_expected =>
    unfold noteEventStep
    dsimp only
    split
    · exact ⟨h.map_eq, h.nodup, h.fresh, h.lbl⟩
    · exact ⟨h.map_eq, h.nodup, h.fresh, h.lbl⟩
  | debit_expected =>
    unfold noteEventStep
    dsimp only
    split
    · rename_i jc heq
      have hjc : jc ∈ debits ∧ ¬ jc.1 ∈ (udx ++ st.newly_used_debit) := by
        split at heq
        · have hm2 := (mem_sortByKey _ _ _).mp (headq_mem _ _ heq)
          have hm3 := List.mem_of_mem_filter hm2
          have hm4 : jc ∈ debits.filter
              (fun q => !((udx ++ st.newly_used_debit).contains q.1)) := by
            cases anchor with
            | none => exact hm3
            | some a => exact List.mem_of_mem_filter hm3
          have hf := List.mem_filter.mp hm4
          refine ⟨hf.1, ?_⟩
          have hf2 := hf.2
          rw [Bool.not_eq_true'] at hf2
          exact not_mem_of_contains_false _ _ hf2
        · split at heq
          · have hm2 := (mem_sortByKey _ _ _).mp (headq_mem _ _ heq)
            have hm3 := List.mem_of_mem_filter hm2
            have hm4 := List.mem_of_mem_filter hm3
            have hf := List.mem_filter.mp hm4
            refine ⟨hf.1, ?_⟩
            have hf2 := hf.2
            rw [Bool.not_eq_true'] at hf2
            exact not_mem_of_contains_false _ _ hf2
          · cases heq
      have hnu : ¬ jc.1 ∈ st.newly_used_debit :=
        fun hm => hjc.2 (List.mem_append_right _ hm)
      have hnux : ¬ jc.1 ∈ udx :=
        fun hm => hjc.2 (List.mem_append_left _ hm)
      refine ⟨?_, ?_, ?_, ?_⟩
      · simp [h.map_eq]
      · exact nodup_snoc _ _ h.nodup hnu
      · intro k hk
        rcases List.mem_append.mp hk with h4 | h4
        · exact h.fresh k h4
        · have he : k = jc.1 := by simpa using h4
          subst he; exact hnux
      · intro k hk
        rcases List.mem_append.mp hk with h4 | h4
        · exact h.lbl k h4
        · have he : k = jc.1 := by simpa using h4
          subst he; exact ⟨jc, hjc.1, rfl⟩
    · exact ⟨h.map_eq, h.nodup, h.fresh, h.lbl⟩

theorem notesFoldInner_inv (credits debits : List (Nat × ChaseRow))
    (ucx udx : List Nat) (tagged : List (String × ChaseRow)) (r : NoteRollRow)
    (evs : List NoteEvent) (st : NotesState) (h : NotesInv debits udx st) :
    NotesInv debits udx
      (evs.foldl (noteEventStep credits debits ucx udx tagged r) st) :=
  foldl_pres (fun s => NotesInv debits udx s)
    (noteEventStep credits debits ucx udx tagged r) evs st
    (fun b a hb => noteEventStep_inv credits debits ucx udx tagged r b a hb) h

theorem notesFoldOuter_inv (credits debits : List (Nat × ChaseRow))
    (ucx udx : List Nat) (tagged : List (String × ChaseRow))
    (evss : List (NoteRollRow × List NoteEvent)) (st : NotesState)
    (h : NotesInv debits udx st) :
    NotesInv debits udx
      (evss.foldl (fun st rv =>
        rv.2.foldl (noteEventStep credits debits ucx udx tagged rv.1) st) st) :=
  foldl_pres (fun s => NotesInv debits udx s)
    (fun st rv => rv.2.foldl (noteEventStep credits debits ucx udx tagged rv.1) st)
    evss st
    (fun b a hb => notesFoldInner_inv credits debits ucx udx tagged a.1 a.2 b hb) h

theorem match_from_notes_inv (ty : Int) (r2d : List R2DRow)
    (ichase : List (Nat × ChaseRow)) (ucx udx : List Nat) (out : NotesOut)
    (h : match_from_notes ty r2d ichase ucx udx = Except.ok out) :
    out.note_debits.map (fun n => n.matched_debit_idx) = out.newly_used_debit
    ∧ out.newly_used_debit.Nodup
    ∧ ∀ k ∈ out.newly_used_debit, ¬ k ∈ udx
        ∧ ∃ jc ∈ ichase.filter (fun jc => jc.2.is_debit), jc.1 = k := by
  unfold match_from_notes at h
  dsimp only at h
  cases hm : (noteRoll r2d).mapM (fun r =>
      (extract_note_events ty r.notes_any r.ref_date).map (fun evs => (r, evs))) with
  | error e =>
    rw [hm] at h
    cases h
  | ok evss =>
    rw [hm] at h
    have hout := Except.ok.inj h
    have hinv := notesFoldOuter_inv (ichase.filter (fun jc => jc.2.is_credit))
      (ichase.filter (fun jc => jc.2.is_debit)) ucx udx
      (taggedCreditRows ichase) evss ⟨[], [], [], []⟩
      ⟨rfl, List.nodup_nil, (by intro k hk; cases hk),
        (by intro k hk; cases hk)⟩
    rw [← hout]
    exact ⟨hinv.map_eq, hinv.nodup, fun k hk => ⟨hinv.fresh k hk, hinv.lbl k hk⟩⟩

/-- The RunOut record that run() assembles once the notes pass has
returned N (the tail of runModel after its only fallible step). -/
def mkRunOut (todayYear : Int) (r2d : List R2DRow) (chase : List ChaseRow)
    (cutoff : Option Ymd) (N : NotesOut) : RunOut :=
  let ichase := idxd chase
  let D := match_debits_relaxed r2d ichase
  let C := match_credits_one_row_per_claim r2d (chaseForOf chase)
  let d_orph2 := D.orphans.filter (fun p => !(C.used_overpay_debit.contains p.1))
  let credits_unmatched1 := C.credits_unmatched.filter
    (fun p => !(N.newly_used_credit.contains p.1))
  let debits_orphans1 := d_orph2.filter (fun p => !(N.newly_used_debit.contains p.1))
  let tagged_idx := (taggedCreditsOf ichase).map (fun p => p.1)
  let credits_unmatched2 := credits_unmatched1.filter
    (fun p => !(tagged_idx.contains p.1))
  let debits_orphans2 : List (Nat × ChaseRow) :=
    match cutoff with
    | some cut => debits_orphans1.filter (fun p =>
        match p.2.posting_date with
        | some d => !(d.toDay < cut.toDay)
        | none => true)
    | none => debits_orphans1
  let d_un2 : List (Nat × R2DRow) :=
    match cutoff with
    | some cut => D.unmatched.filter (fun p =>
        match p.2.transfer_initiated with
        | some d => !(d.toDay < cut.toDay)
        | none => true)
    | none => D.unmatched
  let rev0 := compute_bank_revenue_per_claim D.results C.results N.note_debits
    C.per_claim C.over_adj
  let rev1 := applyTagCredits ichase rev0
  let rev2 := applyTagDebits ichase C.over_adj rev1
  let tagged_debit_idx := (filteredTaggedDebits ichase C.over_adj).map (fun p => p.1)
  let debits_orphans3 := debits_orphans2.filter
    (fun p => !(tagged_debit_idx.contains p.1))
  { d_match := D.results
    d_un := d_un2
    conflicts := D.conflicts
    used_debit_idx := D.usedDebitIdx
    c_match := C.results
    c_un_claims := C.unmatched_rows
    over_adj := C.over_adj
    used_credit_idx := C.used_credit_idx
    used_overpay_debit := C.used_overpay_debit
    note_debits := N.note_debits
    newly_used_debit := N.newly_used_debit
    recontags := N.recontags
    credits_unmatched_final := credits_unmatched2
    debits_orphans_final := debits_orphans3
    per_claim_rev := rev2 }

theorem runModel_eq (t : Int) (r2d : List R2DRow) (chase : List ChaseRow)
    (cut : Option Ymd) :
    runModel t r2d chase cut
      = (match_from_notes t r2d (idxd chase)
          (match_credits_one_row_per_claim r2d (chaseForOf chase)).used_credit_idx
          (match_debits_relaxed r2d (idxd chase)).usedDebitIdx).map
        (fun N => mkRunOut t r2d chase cut N) := by
  unfold runModel
  dsimp only
  cases hm : match_from_notes t r2d (idxd chase)
      (match_credits_one_row_per_claim r2d (chaseForOf chase)).used_credit_idx
      (match_debits_relaxed r2d (idxd chase)).usedDebitIdx with
  | error e => rfl
  | ok N => rfl

theorem runModel_ok_elim (t : Int) (r2d : List R2DRow) (chase : List ChaseRow)
    (cut : Option Ymd) (res : RunOut)
    (hrun : runModel t r2d chase cut = Except.ok res) :
    ∃ N, match_from_notes t r2d (idxd chase)
        (match_credits_one_row_per_claim r2d (chaseForOf chase)).used_credit_idx
        (match_debits_relaxed r2d (idxd chase)).usedDebitIdx = Except.ok N
      ∧ res = mkRunOut t r2d chase cut N := by
  rw [runModel_eq] at hrun
  cases hm : match_from_notes t r2d (idxd chase)
      (match_credits_one_row_per_claim r2d (chaseForOf chase)).used_credit_idx
      (match_debits_relaxed r2d (idxd chase)).usedDebitIdx with
  | error e =>
    rw [hm] at hrun
    cases hrun
  | ok N =>
    rw [hm] at hrun
    exact ⟨N, rfl, (Except.ok.inj hrun).symm⟩

theorem mc_results_eq (r2d : List R2DRow) (ichase : List (Nat × ChaseRow)) :
    (match_credits_one_row_per_claim r2d ichase).results
      = (match_credits_from_roll (_prepare_credit_matching_data r2d)
          ichase).results := rfl

theorem mc_used_credit_eq (r2d : List R2DRow) (ichase : List (Nat × ChaseRow)) :
    (match_credits_one_row_per_claim r2d ichase).used_credit_idx
      = (match_credits_from_roll (_prepare_credit_matching_data r2d)
          ichase).used_credit := rfl

theorem mc_used_over_eq (r2d : List R2DRow) (ichase : List (Nat × ChaseRow)) :
    (match_credits_one_row_per_claim r2d ichase).used_overpay_debit
      = (match_credits_from_roll (_prepare_credit_matching_data r2d)
          ichase).used_overpay_debit := rfl

theorem mc_credits_unmatched_eq (r2d : List R2DRow)
    (ichase : List (Nat × ChaseRow)) :
    (match_credits_one_row_per_claim r2d ichase).credits_unmatched
      = (ichase.filter (fun jc => jc.2.is_credit)).filter
          (fun jc => !((match_credits_one_row_per_claim r2d
            ichase).used_credit_idx.contains jc.1)) := rfl

theorem mdr_used_eq (r2d : List R2DRow) (ichase : List (Nat × ChaseRow)) :
    (match_debits_relaxed r2d ichase).usedDebitIdx
      = (match_debits_relaxed r2d ichase).results.map
          (fun r => r.chase_index) := rfl

theorem mdr_orphans_eq (r2d : List R2DRow) (ichase : List (Nat × ChaseRow)) :
    (match_debits_relaxed r2d ichase).orphans
      = (ichase.filter (fun jc => jc.2.is_debit)).filter
          (fun jc => !((match_debits_relaxed r2d
            ichase).usedDebitIdx.contains jc.1)) := rfl

/-- A label cannot be both the index of a debit row of the table and of a
credit row of the tag-filtered pool. -/
theorem no_shared_label (chase : List ChaseRow) (k : Nat)
    (hd : ∃ jc ∈ (idxd chase).filter (fun jc => jc.2.is_debit), jc.1 = k)
    (hc : ∃ jc ∈ (chaseForOf chase).filter (fun jc => jc.2.is_credit), jc.1 = k) :
    False := by
  obtain ⟨jd, hjd, rfl⟩ := hd
  obtain ⟨jc, hjc, hjc1⟩ := hc
  apply credit_debit_disjoint chase jd.1 jc.2 jd.2
  · have hf := List.mem_filter.mp hjc
    have hic : jc ∈ idxd chase := List.mem_of_mem_filter hf.1
    refine List.mem_filter.mpr ⟨?_, hf.2⟩
    rw [← hjc1]
    exact hic
  · exact hjd

/-- The successful output of runModel, with an empty record as the error
default (used only to name concrete outputs in closed statements). -/
def runOutOrEmpty (t : Int) (r2d : List R2DRow) (chase : List ChaseRow)
    (cut : Option Ymd) : RunOut :=
  match runModel t r2d chase cut with
  | Except.ok o => o
  | Except.error _ =>
    { d_match := [], d_un := [], conflicts := [], used_debit_idx := []
      c_match := [], c_un_claims := [], over_adj := [], used_credit_idx := []
      used_overpay_debit := [], note_debits := [], newly_used_debit := []
      recontags := [], credits_unmatched_final := [], debits_orphans_final := []
      per_claim_rev := [] }

/-- C1 (amended): in every successful run each bank transaction is
consumed as a primary match by at most one record across the debit
matcher, the credit matcher and the notes matcher (the consumed chase
indices of the three record lists are pairwise distinct and none repeats),
and the overpay-linked debit indices are mutually distinct; the overpay
link is not, however, protected from reuse by the notes matcher (see the
counterexample). -/
theorem c1_primary_consumption_unique (todayYear : Int) (r2d : List R2DRow)
    (chase : List ChaseRow) (cutoff : Option Ymd) (res : RunOut)
    (hrun : runModel todayYear r2d chase cutoff = Except.ok res) :
    (res.d_match.map (fun r => r.chase_index)
      ++ res.c_match.map (fun m => m.chase_credit_idx)
      ++ res.note_debits.map (fun n => n.matched_debit_idx)).Nodup
    ∧ res.used_overpay_debit.Nodup := by
  obtain ⟨N, hN, hres⟩ := runModel_ok_elim todayYear r2d chase cutoff res hrun
  subst hres
  have hD := match_debits_relaxed_inv r2d (idxd chase)
  have hC := match_credits_from_roll_inv (_prepare_credit_matching_data r2d)
    (chaseForOf chase)
  have hNi := match_from_notes_inv todayYear r2d (idxd chase) _ _ N hN
  have e1 : (mkRunOut todayYear r2d chase cutoff N).d_match
      = (match_debits_relaxed r2d (idxd chase)).results := rfl
  have e2 : (mkRunOut todayYear r2d chase cutoff N).c_match
      = (match_credits_one_row_per_claim r2d (chaseForOf chase)).results := rfl
  have e3 : (mkRunOut todayYear r2d chase cutoff N).note_debits
      = N.note_debits := rfl
  have e4 : (mkRunOut todayYear r2d chase cutoff N).used_overpay_debit
      = (match_credits_one_row_per_claim r2d
          (chaseForOf chase)).used_overpay_debit := rfl
  rw [e1, e2, e3, e4]
  constructor
  · rw [List.nodup_append, List.nodup_append]
    refine ⟨⟨?_, ?_, ?_⟩, ?_, ?_⟩
    · rw [← mdr_used_eq]
      exact hD.nodup
    · rw [mc_results_eq]
      exact hC.idx_nodup
    · intro k hk1 hk2
      rcases List.mem_map.mp hk1 with ⟨r, hr, hre⟩
      rcases List.mem_map.mp hk2 with ⟨m, hm, hme⟩
      rw [mc_results_eq] at hm
      refine no_shared_label chase k ?_ ?_
      · rw [← hre]
        exact hD.lbl r hr
      · rw [← hme]
        exact hC.used_lbl _ (hC.idx_used m hm)
    · rw [hNi.1]
      exact hNi.2.1
    · intro k hk1 hk2
      rw [hNi.1] at hk2
      have hkn := hNi.2.2 k hk2
      rcases List.mem_append.mp hk1 with h4 | h4
      · rcases List.mem_map.mp h4 with ⟨r, hr, hre⟩
        apply hkn.1
        rw [mdr_used_eq, ← hre]
        exact List.mem_map_of_mem _ hr
      · rcases List.mem_map.mp h4 with ⟨m, hm, hme⟩
        rw [mc_results_eq] at hm
        refine no_shared_label chase k hkn.2 ?_
        rw [← hme]
        exact hC.used_lbl _ (hC.idx_used m hm)
  · rw [mc_used_over_eq]
    exact hC.over_nodup

/-- Closed instance of the amended C1 theorem on the CA/CB example. -/
theorem c1_primary_consumption_unique_witness :
    runModel 2026 [exCa, exCb] exChaseC1 none
        = Except.ok (runOutOrEmpty 2026 [exCa, exCb] exChaseC1 none)
    ∧ (((runOutOrEmpty 2026 [exCa, exCb] exChaseC1 none).d_match.map
          (fun r => r.chase_index)
        ++ (runOutOrEmpty 2026 [exCa, exCb] exChaseC1 none).c_match.map
          (fun m => m.chase_credit_idx)
        ++ (runOutOrEmpty 2026 [exCa, exCb] exChaseC1 none).note_debits.map
          (fun n => n.matched_debit_idx)).Nodup
      ∧ (runOutOrEmpty 2026 [exCa, exCb] exChaseC1 none).used_overpay_debit.Nodup) :=
  ⟨by rfl, c1_primary_consumption_unique 2026 [exCa, exCb] exChaseC1 none
    (runOutOrEmpty 2026 [exCa, exCb] exChaseC1 none) (by rfl)⟩

/-- C2: conservation.  A bank transaction consumed by any MatchRecord of a
successful run (a primary debit match, a credit match, a note-based debit
match, or an overpay-linked debit) appears neither among the final
unmatched CHASE credits nor among the final unmatched CHASE debits. -/
theorem c2_conservation (todayYear : Int) (r2d : List R2DRow)
    (chase : List ChaseRow) (cutoff : Option Ymd) (res : RunOut) (k : Nat)
    (hrun : runModel todayYear r2d chase cutoff = Except.ok res)
    (hcons : (∃ r ∈ res.d_match, r.chase_index = k)
      ∨ (∃ m ∈ res.c_match, m.chase_credit_idx = k)
      ∨ (∃ n ∈ res.note_debits, n.matched_debit_idx = k)
      ∨ k ∈ res.used_overpay_debit) :
    ¬ k ∈ res.credits_unmatched_final.map Prod.fst
    ∧ ¬ k ∈ res.debits_orphans_final.map Prod.fst := by
  obtain ⟨N, hN, hres⟩ := runModel_ok_elim todayYear r2d chase cutoff res hrun
  subst hres
  have hD := match_debits_relaxed_inv r2d (idxd chase)
  have hC := match_credits_from_roll_inv (_prepare_credit_matching_data r2d)
    (chaseForOf chase)
  have hNi := match_from_notes_inv todayYear r2d (idxd chase) _ _ N hN
  have hcredm : ∀ p, p ∈ (mkRunOut todayYear r2d chase cutoff
        N).credits_unmatched_final →
      p ∈ (chaseForOf chase).filter (fun jc => jc.2.is_credit)
      ∧ ¬ p.1 ∈ (match_credits_one_row_per_claim r2d
          (chaseForOf chase)).used_credit_idx := by
    intro p hp
    have h0 := List.mem_of_mem_filter hp
    have h1 := List.mem_of_mem_filter h0
    rw [mc_credits_unmatched_eq] at h1
    have h2 := List.mem_filter.mp h1
    refine ⟨h2.1, ?_⟩
    have h3 := h2.2
    rw [Bool.not_eq_true'] at h3
    exact not_mem_of_contains_false _ _ h3
  have horphm : ∀ p, p ∈ (mkRunOut todayYear r2d chase cutoff
        N).debits_orphans_final →
      (p ∈ (idxd chase).filter (fun jc => jc.2.is_debit)
        ∧ ¬ p.1 ∈ (match_debits_relaxed r2d (idxd chase)).usedDebitIdx)
      ∧ ¬ p.1 ∈ (match_credits_one_row_per_claim r2d
          (chaseForOf chase)).used_overpay_debit
      ∧ ¬ p.1 ∈ N.newly_used_debit := by
    intro p hp
    have h0 := List.mem_of_mem_filter hp
    have h1 : p ∈ ((match_debits_relaxed r2d (idxd chase)).orphans.filter
        (fun q => !((match_credits_one_row_per_claim r2d
          (chaseForOf chase)).used_overpay_debit.contains q.1))).filter
        (fun q => !(N.newly_used_debit.contains q.1)) := by
      cases cutoff with
      | none => exact h0
      | some cut => exact List.mem_of_mem_filter h0
    have h2 := List.mem_filter.mp h1
    have h3 := List.mem_filter.mp h2.1
    have h5 := List.mem_filter.mp (mdr_orphans_eq r2d (idxd chase) ▸ h3.1)
    have h52 := h5.2
    have h32 := h3.2
    have h22 := h2.2
    rw [Bool.not_eq_true'] at h52 h32 h22
    exact ⟨⟨h5.1, not_mem_of_contains_false _ _ h52⟩,
      not_mem_of_contains_false _ _ h32, not_mem_of_contains_false _ _ h22⟩
  constructor
  · intro hk
    rcases List.mem_map.mp hk with ⟨p, hp, hpk⟩
    have hcm := hcredm p hp
    rcases hcons with h | h | h | h
    · obtain ⟨r, hr, hre⟩ := h
      refine no_shared_label chase k ?_ ⟨p, hcm.1, hpk⟩
      rw [← hre]
      exact hD.lbl r hr
    · obtain ⟨m, hm, hme⟩ := h
      apply hcm.2
      have hm2 : m ∈ (match_credits_one_row_per_claim r2d
          (chaseForOf chase)).results := hm
      rw [mc_results_eq] at hm2
      rw [hpk, ← hme, mc_used_credit_eq]
      exact hC.idx_used m hm2
    · obtain ⟨n, hn, hne⟩ := h
      have hkn : k ∈ N.newly_used_debit := by
        rw [← hNi.1, ← hne]
        exact List.mem_map_of_mem _ hn
      exact no_shared_label chase k (hNi.2.2 k hkn).2 ⟨p, hcm.1, hpk⟩
    · have h2 : k ∈ (match_credits_one_row_per_claim r2d
          (chaseForOf chase)).used_overpay_debit := h
      rw [mc_used_over_eq] at h2
      obtain ⟨jd, hjd, hjde⟩ := hC.over_lbl k h2
      have hf := List.mem_filter.mp hjd
      exact no_shared_label chase k
        ⟨jd, List.mem_filter.mpr ⟨List.mem_of_mem_filter hf.1, hf.2⟩, hjde⟩
        ⟨p, hcm.1, hpk⟩
  · intro hk
    rcases List.mem_map.mp hk with ⟨p, hp, hpk⟩
    have hom := horphm p hp
    rcases hcons with h | h | h | h
    · obtain ⟨r, hr, hre⟩ := h
      apply hom.1.2
      rw [hpk, mdr_used_eq, ← hre]
      exact List.mem_map_of_mem _ hr
    · obtain ⟨m, hm, hme⟩ := h
      have hm2 : m ∈ (match_credits_one_row_per_claim r2d
          (chaseForOf chase)).results := hm
      rw [mc_results_eq] at hm2
      refine no_shared_label chase k ⟨p, hom.1.1, hpk⟩ ?_
      rw [← hme]
      exact hC.used_lbl _ (hC.idx_used m hm2)
    · obtain ⟨n, hn, hne⟩ := h
      apply hom.2.2
      rw [hpk, ← hNi.1, ← hne]
      exact List.mem_map_of_mem _ hn
    · apply hom.2.1
      rw [hpk]
      exact h

/-- Closed instance of the conservation theorem: in the CA/CB run the
50.00 debit at index 2 is consumed as the overpay link of the CA credit
match, and indeed appears in neither final unmatched output. -/
theorem c2_conservation_witness :
    runModel 2026 [exCa, exCb] exChaseC1 none
        = Except.ok (runOutOrEmpty 2026 [exCa, exCb] exChaseC1 none)
    ∧ 2 ∈ (runOutOrEmpty 2026 [exCa, exCb] exChaseC1 none).used_overpay_debit
    ∧ (¬ 2 ∈ (runOutOrEmpty 2026 [exCa, exCb]
          exChaseC1 none).credits_unmatched_final.map Prod.fst
      ∧ ¬ 2 ∈ (runOutOrEmpty 2026 [exCa, exCb]
          exChaseC1 none).debits_orphans_final.map Prod.fst) :=
  ⟨by rfl, by decide,
    c2_conservation 2026 [exCa, exCb] exChaseC1 none
      (runOutOrEmpty 2026 [exCa, exCb] exChaseC1 none) 2 (by rfl)
      (Or.inr (Or.inr (Or.inr (by decide))))⟩

theorem compute_rev_eff (dm : List DebitMatch) (cm : List CreditMatch)
    (nd : List NoteDebitRow) (pc : List RollRow) (oa : List CreditMatch) :
    ∀ p ∈ compute_bank_revenue_per_claim dm cm nd pc oa,
      p.bank_credits_effective = p.eff_before_tags := by
  intro p hp
  unfold compute_bank_revenue_per_claim at hp
  dsimp only at hp
  rcases List.mem_map.mp hp with ⟨q, hq, rfl⟩
  rfl

theorem taggedDebitSumF_nil (ichase : List (Nat × ChaseRow))
    (oa : List CreditMatch) (c : String) (h : taggedDebitsOf ichase = []) :
    taggedDebitSumF ichase oa c = 0 := by
  unfold taggedDebitSumF filteredTaggedDebits
  rw [h]
  rfl

theorem applyTagCredits_spec (ichase : List (Nat × ChaseRow))
    (rows : List RevRow) (hne : (taggedCreditsOf ichase).isEmpty = false)
    (hrows : ∀ p ∈ rows, p.bank_credits_effective = p.eff_before_tags) :
    ∀ q ∈ applyTagCredits ichase rows,
      q.claim_id = pytrim q.claim_id
      ∧ q.bank_credits_effective
          = q.eff_before_tags + taggedCreditSum ichase q.claim_id := by
  intro q hq
  unfold applyTagCredits at hq
  rw [hne] at hq
  simp only [Bool.false_eq_true, if_false] at hq
  rcases List.mem_map.mp hq with ⟨p, hp, rfl⟩
  refine ⟨(pytrim_idem _).symm, ?_⟩
  show p.bank_credits_effective + taggedCreditSum ichase (pytrim p.claim_id)
      = p.eff_before_tags + taggedCreditSum ichase (pytrim p.claim_id)
  rw [hrows p hp]

theorem applyTagDebits_spec (ichase : List (Nat × ChaseRow))
    (oa : List CreditMatch) (rows : List RevRow)
    (hrows : ∀ q ∈ rows, q.claim_id = pytrim q.claim_id
      ∧ q.bank_credits_effective
          = q.eff_before_tags + taggedCreditSum ichase q.claim_id) :
    ∀ z ∈ applyTagDebits ichase oa rows,
      z.bank_credits_effective
        = z.eff_before_tags + taggedCreditSum ichase z.claim_id
          - taggedDebitSumF ichase oa z.claim_id := by
  intro z hz
  unfold applyTagDebits at hz
  by_cases hemp : (taggedDebitsOf ichase).isEmpty = true
  · rw [if_pos hemp] at hz
    have h0 := hrows z hz
    have hnil : taggedDebitsOf ichase = [] := by
      cases hx : taggedDebitsOf ichase with
      | nil => rfl
      | cons a l => rw [hx] at hemp; simp at hemp
    rw [taggedDebitSumF_nil _ _ _ hnil, h0.2, Int.sub_zero]
  · rw [if_neg hemp] at hz
    rcases List.mem_map.mp hz with ⟨q, hq, rfl⟩
    have h0 := hrows q hq
    show q.bank_credits_effective
        - taggedDebitSumF ichase oa (pytrim q.claim_id)
      = q.eff_before_tags + taggedCreditSum ichase (pytrim q.claim_id)
        - taggedDebitSumF ichase oa (pytrim q.claim_id)
    rw [← h0.1, h0.2]

/-- C7: a ReconTagged bank credit never appears among the final unmatched
CHASE credits, and every Per_Claim_Revenue row of a run with tagged
credits has Bank Credits (Effective) equal to its pre-tag value plus the
tagged-credit sum of its claim (minus the filtered tagged-debit sum), so
the tagged amount is added even when an automatic credit match exists. -/
theorem c7_recontag_priority (todayYear : Int) (r2d : List R2DRow)
    (chase : List ChaseRow) (cutoff : Option Ymd) (res : RunOut) (k : Nat)
    (row : ChaseRow)
    (hrun : runModel todayYear r2d chase cutoff = Except.ok res)
    (htag : (k, row) ∈ taggedCreditsOf (idxd chase)) :
    ¬ k ∈ res.credits_unmatched_final.map Prod.fst
    ∧ ∀ p ∈ res.per_claim_rev,
        p.bank_credits_effective
          = p.eff_before_tags + taggedCreditSum (idxd chase) p.claim_id
            - taggedDebitSumF (idxd chase) res.over_adj p.claim_id := by
  obtain ⟨N, hN, hres⟩ := runModel_ok_elim todayYear r2d chase cutoff res hrun
  subst hres
  constructor
  · intro hk
    rcases List.mem_map.mp hk with ⟨p, hp, hpk⟩
    have h2 := List.mem_filter.mp hp
    have h3 := h2.2
    rw [Bool.not_eq_true'] at h3
    apply not_mem_of_contains_false _ _ h3
    rw [hpk]
    exact List.mem_map_of_mem _ htag
  · have hne : (taggedCreditsOf (idxd chase)).isEmpty = false := by
      cases he : taggedCreditsOf (idxd chase) with
      | nil => rw [he] at htag; cases htag
      | cons a l => rfl
    have hrev0 := compute_rev_eff (match_debits_relaxed r2d (idxd chase)).results
      (match_credits_one_row_per_claim r2d (chaseForOf chase)).results
      N.note_debits
      (match_credits_one_row_per_claim r2d (chaseForOf chase)).per_claim
      (match_credits_one_row_per_claim r2d (chaseForOf chase)).over_adj
    have h1 := applyTagCredits_spec (idxd chase) _ hne hrev0
    have h2 := applyTagDebits_spec (idxd chase)
      ((match_credits_one_row_per_claim r2d (chaseForOf chase)).over_adj) _ h1
    intro p hp
    exact h2 p hp

/-- Closed instance of the ReconTag theorem: the 77.00 credit at index 3,
tagged " CA ", in the CA/CB run. -/
theorem c7_recontag_priority_witness :
    runModel 2026 [exCa, exCb] exChaseC7 none
        = Except.ok (runOutOrEmpty 2026 [exCa, exCb] exChaseC7 none)
    ∧ (3, { posting_date := some exDay, description := ("manual"),
            amount := some 7700, recon_tag := some (" CA ") })
        ∈ taggedCreditsOf (idxd exChaseC7)
    ∧ (¬ 3 ∈ (runOutOrEmpty 2026 [exCa, exCb]
          exChaseC7 none).credits_unmatched_final.map Prod.fst
      ∧ ∀ p ∈ (runOutOrEmpty 2026 [exCa, exCb] exChaseC7 none).per_claim_rev,
          p.bank_credits_effective
            = p.eff_before_tags + taggedCreditSum (idxd exChaseC7) p.claim_id
              - taggedDebitSumF (idxd exChaseC7)
                  (runOutOrEmpty 2026 [exCa, exCb]
                    exChaseC7 none).over_adj p.claim_id) :=
  ⟨by rfl, by decide,
    c7_recontag_priority 2026 [exCa, exCb] exChaseC7 none
      (runOutOrEmpty 2026 [exCa, exCb] exChaseC7 none) 3
      { posting_date := some exDay, description := ("manual"),
        amount := some 7700, recon_tag := some (" CA ") }
      (by rfl) (by decide)⟩

end R2D

